import Mathlib

/-!
Shallow embedding of the OpenGL 3.3 renderers declared in
src/graphics/opengl/gl33renderers.h (Colobot: Gold Edition).

The header declares three renderer classes, CGL33UIRenderer,
CGL33TerrainRenderer and CGL33ShadowRenderer, together with their cached
state fields (uniform caches, dirty flags, streaming-buffer bookkeeping,
texture-binding caches, fixed texture-unit indices).  The method bodies
(gl33renderers.cpp) and the base renderer contract (graphics/core/renderers.h)
are not part of the sources, so operational behaviour is modelled from the
specification; every such definition carries a doc comment starting with
"Modelled from the spec:".  Machine floats are modelled as rationals and
GPU-side effects as explicit call traces.
-/

namespace Gfx

/-- Two-component vector (glm::vec2), components modelled as rationals. -/
structure Vec2 where
  x : ℚ
  y : ℚ
deriving DecidableEq, Repr

/-- Three-component vector (glm::vec3), components modelled as rationals. -/
structure Vec3 where
  x : ℚ
  y : ℚ
  z : ℚ
deriving DecidableEq, Repr

/-- Four-component vector (glm::vec4), components modelled as rationals. -/
structure Vec4 where
  x : ℚ
  y : ℚ
  z : ℚ
  w : ℚ
deriving DecidableEq, Repr

/-- RGBA color (Gfx::Color), components modelled as rationals. -/
structure Color where
  r : ℚ
  g : ℚ
  b : ℚ
  a : ℚ
deriving DecidableEq, Repr

/-- 3x3 matrix (glm::mat3) with entry mIJ in row I, column J. -/
structure Mat3 where
  m00 : ℚ
  m01 : ℚ
  m02 : ℚ
  m10 : ℚ
  m11 : ℚ
  m12 : ℚ
  m20 : ℚ
  m21 : ℚ
  m22 : ℚ
deriving DecidableEq, Repr

/-- 4x4 matrix (glm::mat4) with entry mIJ in row I, column J. -/
structure Mat4 where
  m00 : ℚ
  m01 : ℚ
  m02 : ℚ
  m03 : ℚ
  m10 : ℚ
  m11 : ℚ
  m12 : ℚ
  m13 : ℚ
  m20 : ℚ
  m21 : ℚ
  m22 : ℚ
  m23 : ℚ
  m30 : ℚ
  m31 : ℚ
  m32 : ℚ
  m33 : ℚ
deriving DecidableEq, Repr

/-- The 3x3 identity matrix. -/
def Mat3.id : Mat3 := ⟨1, 0, 0, 0, 1, 0, 0, 0, 1⟩

/-- Matrix transpose for 3x3 matrices. -/
def Mat3.transpose (A : Mat3) : Mat3 :=
  ⟨A.m00, A.m10, A.m20, A.m01, A.m11, A.m21, A.m02, A.m12, A.m22⟩

/-- Matrix product of 3x3 matrices. -/
def Mat3.mul (A B : Mat3) : Mat3 :=
  ⟨A.m00 * B.m00 + A.m01 * B.m10 + A.m02 * B.m20,
   A.m00 * B.m01 + A.m01 * B.m11 + A.m02 * B.m21,
   A.m00 * B.m02 + A.m01 * B.m12 + A.m02 * B.m22,
   A.m10 * B.m00 + A.m11 * B.m10 + A.m12 * B.m20,
   A.m10 * B.m01 + A.m11 * B.m11 + A.m12 * B.m21,
   A.m10 * B.m02 + A.m11 * B.m12 + A.m12 * B.m22,
   A.m20 * B.m00 + A.m21 * B.m10 + A.m22 * B.m20,
   A.m20 * B.m01 + A.m21 * B.m11 + A.m22 * B.m21,
   A.m20 * B.m02 + A.m21 * B.m12 + A.m22 * B.m22⟩

/-- Determinant of a 3x3 matrix by cofactor expansion along the first row. -/
def Mat3.det (A : Mat3) : ℚ :=
  A.m00 * (A.m11 * A.m22 - A.m12 * A.m21)
    - A.m01 * (A.m10 * A.m22 - A.m12 * A.m20)
    + A.m02 * (A.m10 * A.m21 - A.m11 * A.m20)

/-- Cofactor matrix of a 3x3 matrix: entry (i, j) is the signed minor. -/
def Mat3.cofactor (A : Mat3) : Mat3 :=
  ⟨A.m11 * A.m22 - A.m12 * A.m21,
   -(A.m10 * A.m22 - A.m12 * A.m20),
   A.m10 * A.m21 - A.m11 * A.m20,
   -(A.m01 * A.m22 - A.m02 * A.m21),
   A.m00 * A.m22 - A.m02 * A.m20,
   -(A.m00 * A.m21 - A.m01 * A.m20),
   A.m01 * A.m12 - A.m02 * A.m11,
   -(A.m00 * A.m12 - A.m02 * A.m10),
   A.m00 * A.m11 - A.m01 * A.m10⟩

/-- Scalar multiple of a 3x3 matrix. -/
def Mat3.smul (q : ℚ) (A : Mat3) : Mat3 :=
  ⟨q * A.m00, q * A.m01, q * A.m02,
   q * A.m10, q * A.m11, q * A.m12,
   q * A.m20, q * A.m21, q * A.m22⟩

/-- Inverse-transpose of a 3x3 matrix, computed as in glm::inverseTranspose:
the cofactor matrix scaled by the reciprocal of the determinant. -/
def Mat3.inverseTranspose (A : Mat3) : Mat3 :=
  Mat3.smul (Mat3.det A)⁻¹ (Mat3.cofactor A)

/-- Upper-left 3x3 block (the linear part) of a 4x4 matrix. -/
def Mat4.upper3 (M : Mat4) : Mat3 :=
  ⟨M.m00, M.m01, M.m02, M.m10, M.m11, M.m12, M.m20, M.m21, M.m22⟩

/-- The 4x4 identity matrix. -/
def Mat4.id : Mat4 := ⟨1, 0, 0, 0, 0, 1, 0, 0, 0, 0, 1, 0, 0, 0, 0, 1⟩

/-- The 4x4 zero matrix. -/
def Mat4.zero : Mat4 := ⟨0, 0, 0, 0, 0, 0, 0, 0, 0, 0, 0, 0, 0, 0, 0, 0⟩

/-- Orthographic projection matrix as built by glm::ortho(left, right,
bottom, top): used by SetProjection of the UI renderer. -/
def ortho (l r b t : ℚ) : Mat4 :=
  { Mat4.id with
      m00 := 2 / (r - l)
      m11 := 2 / (t - b)
      m22 := -1
      m03 := -(r + l) / (r - l)
      m13 := -(t + b) / (t - b) }

/-- Modelled from the spec: primitive topology selector (PrimitiveType of
graphics/core, not under src): triangles, lines, strips, fans, points. -/
inductive PrimitiveType where
  | points
  | lines
  | lineStrip
  | triangles
  | triangleStrip
  | triangleFan
deriving DecidableEq, Repr

/-- Modelled from the spec: blend configuration selector (TransparencyMode of
graphics/core, not under src): opaque, alpha-blend, additive. -/
inductive TransparencyMode where
  | blendNone
  | blendAlpha
  | blendAdditive
deriving DecidableEq, Repr

/-- Modelled from the spec: one shadow region (ShadowParam of graphics/core,
not under src): a transform plus an offset and scale into the shadow atlas. -/
structure ShadowParam where
  transform : Mat4
  offset : Vec2
  scale : Vec2
deriving DecidableEq, Repr

/-- Modelled from the spec: descriptor of an externally owned vertex buffer
(CVertexBuffer of graphics/core, not under src): a handle and vertex count. -/
structure VertexBuffer where
  id : ℕ
  vertexCount : ℕ
deriving DecidableEq, Repr

/-- Contract-violation outcomes: calling an operation in the wrong
state-machine state is rejected (spec section 7: programmer error fails
loudly) rather than silently issuing GPU commands. -/
inductive RenderError where
  | notActive
  | alreadyActive
  | notMapped
  | alreadyMapped
  | contractViolation
deriving DecidableEq, Repr

/-- Modelled from the spec: an empty texture handle (0) resolves to the
renderer's built-in 1x1 white texture so untextured draws still sample. -/
def resolveTexture (white t : ℕ) : ℕ :=
  if t = 0 then white else t

/-- Starting offsets of the sub-primitives of a batched draw: the entries of
m_first, computed as running prefix sums of the per-primitive counts on top
of the base buffer offset. -/
def firsts (base : ℕ) : List ℕ → List ℕ
  | [] => []
  | c :: cs => base :: firsts (base + c) cs

/-- Write a list of vertices into buffer memory of the given capacity at the
given offset; indices outside the capacity or outside the written range keep
their previous contents. -/
def writeRegion {V : Type} (cap : ℕ) (f : ℕ → Option V) (off : ℕ)
    (vs : List V) : ℕ → Option V :=
  fun i => if i < cap ∧ off ≤ i ∧ i < off + vs.length then vs.get? (i - off) else f i

/-- Read n consecutive cells of buffer memory starting at the given offset. -/
def readRegion {V : Type} (f : ℕ → Option V) (off n : ℕ) : List (Option V) :=
  (List.range n).map (fun i => f (off + i))

/-! ### CGL33UIRenderer -/

/-- The uniform block of CGL33UIRenderer (struct Uniforms of
gl33renderers.h): projection matrix and tint color. -/
structure Uniforms where
  projectionMatrix : Mat4
  color : Vec4
deriving DecidableEq, Repr

/-- One draw submitted to the GPU by the UI renderer.  The record captures
everything the GPU reads at the moment the draw executes: the topology, the
per-sub-primitive start offsets and vertex counts (m_first / m_count), the
contents of the covered vertex-buffer region, the GPU copy of the uniform
block, the bound texture, and whether the fast mapped path was used. -/
structure UISubmission (V : Type) where
  ptype : PrimitiveType
  first : List ℕ
  count : List ℕ
  vertices : List (Option V)
  uniforms : Uniforms
  texture : ℕ
  fastPath : Bool

/-- A device call issued by the UI renderer, recorded as a trace event. -/
inductive UICall (V : Type) where
  | useProgram
  | bindTexture (tex : ℕ)
  | uploadUniforms (u : Uniforms)
  | bufferSubData (offset : ℕ) (data : List V)
  | drawCall (s : UISubmission V)

/-- The draw submission carried by a trace event, if any. -/
def UICall.drawOf {V : Type} : UICall V → Option (UISubmission V)
  | .drawCall s => some s
  | _ => none

/-- The draws contained in a UI renderer trace, in order. -/
def uiDraws {V : Type} (calls : List (UICall V)) : List (UISubmission V) :=
  calls.filterMap UICall.drawOf

/-- Number of texture-bind calls in a UI renderer trace. -/
def uiBindCount {V : Type} (calls : List (UICall V)) : ℕ :=
  (calls.filter (fun c => match c with | .bindTexture _ => true | _ => false)).length

/-- State of CGL33UIRenderer, mirroring the fields of gl33renderers.h:
m_uniforms, m_uniformsDirty, the GPU copy of the uniform buffer, the
streaming vertex buffer (m_bufferCapacity, m_bufferOffset and its GPU
contents), the mapping state (m_type, m_currentCount, m_first, m_count,
m_mapped, m_backup, m_buffer as the pending writes) and the texture cache
(m_whiteTexture, m_currentTexture).  The active flag is the shared
Idle/Active state machine of the base contract. -/
structure UIState (V : Type) where
  active : Bool
  uniforms : Uniforms
  uniformsDirty : Bool
  gpuUniforms : Uniforms
  transparency : TransparencyMode
  bufferCapacity : ℕ
  bufferOffset : ℕ
  ptype : PrimitiveType
  currentCount : ℕ
  first : List ℕ
  count : List ℕ
  mapped : Bool
  backup : Bool
  pending : List V
  vbo : ℕ → Option V
  whiteTexture : ℕ
  currentTexture : ℕ

/-- Modelled from the spec: SetColor body (gl33renderers.cpp, not under src):
sets the uniform tint and marks the uniform block dirty; no GPU call. -/
def setColorC {V : Type} (c : Vec4) (st : UIState V) : UIState V × List (UICall V) :=
  ({ st with uniforms := { st.uniforms with color := c }, uniformsDirty := true }, [])

/-- Modelled from the spec: SetProjection body (gl33renderers.cpp, not under
src): stores the orthographic projection and marks the uniform block dirty;
does not itself touch the GPU. -/
def setProjectionC {V : Type} (l r b t : ℚ) (st : UIState V) :
    UIState V × List (UICall V) :=
  ({ st with uniforms := { st.uniforms with projectionMatrix := ortho l r b t },
             uniformsDirty := true }, [])

/-- Modelled from the spec: SetTexture body (gl33renderers.cpp, not under
src): resolves an empty texture to the 1x1 white texture, then binds only
when the resolved handle differs from the cached current texture. -/
def setTextureC {V : Type} (t : ℕ) (st : UIState V) : UIState V × List (UICall V) :=
  let r := resolveTexture st.whiteTexture t
  if r = st.currentTexture then (st, [])
  else ({ st with currentTexture := r }, [UICall.bindTexture r])

/-- Modelled from the spec: SetTransparency body (gl33renderers.cpp, not
under src): selects the blend configuration applied at draw time. -/
def setTransparencyC {V : Type} (mode : TransparencyMode) (st : UIState V) :
    UIState V × List (UICall V) :=
  ({ st with transparency := mode }, [])

/-- Modelled from the spec: UpdateUniforms body (gl33renderers.cpp, not under
src): when the uniform block is dirty, upload the host copy to the GPU
buffer and clear the dirty flag; otherwise do nothing. -/
def updateUniformsC {V : Type} (st : UIState V) : UIState V × List (UICall V) :=
  if st.uniformsDirty then
    ({ st with gpuUniforms := st.uniforms, uniformsDirty := false },
     [UICall.uploadUniforms st.uniforms])
  else (st, [])

/-- Modelled from the spec: BeginPrimitives body (gl33renderers.cpp, not
under src): opens one contiguous region for drawCount sub-primitives with
the given vertex counts, recording per-sub-primitive start offsets and
counts.  When the request would exceed the buffer capacity the offset is
reset and the fallback (backup-buffer) path is used; a platform mapping
failure (the mapFails oracle) likewise forces the fallback path. -/
def beginPrimitivesC {V : Type} (mapFails : Bool) (ty : PrimitiveType)
    (counts : List ℕ) (st : UIState V) : UIState V × List (UICall V) :=
  let total := counts.sum
  let overrun := st.bufferCapacity < st.bufferOffset + total
  let base := if overrun then 0 else st.bufferOffset
  ({ st with
      mapped := true
      backup := overrun || mapFails
      ptype := ty
      currentCount := total
      bufferOffset := base
      first := firsts base counts
      count := counts
      pending := [] }, [])

/-- Modelled from the spec: BeginPrimitive body (gl33renderers.cpp, not
under src): a batch of exactly one primitive of the given vertex count. -/
def beginPrimitiveC {V : Type} (mapFails : Bool) (ty : PrimitiveType) (n : ℕ)
    (st : UIState V) : UIState V × List (UICall V) :=
  beginPrimitivesC mapFails ty [n] st

/-- Modelled from the spec: the caller writing vertices through the pointer
returned by BeginPrimitive(s).  On the fast path the writes land directly in
the mapped GPU buffer region; on the fallback path they accumulate in the
host-side backup buffer (m_buffer). -/
def writeVerticesC {V : Type} (vs : List V) (st : UIState V) :
    UIState V × List (UICall V) :=
  if st.backup then ({ st with pending := st.pending ++ vs }, [])
  else
    ({ st with
        pending := st.pending ++ vs
        vbo := writeRegion st.bufferCapacity st.vbo
          (st.bufferOffset + st.pending.length) vs }, [])

/-- Modelled from the spec: EndPrimitive body (gl33renderers.cpp, not under
src): on the fallback path the backup buffer is uploaded with a non-mapped
buffer-update call; then any dirty uniforms are flushed, one multi-draw call
covering all recorded sub-primitives is issued, the buffer offset advances
past the written region and the mapping state is closed.  The boolean result
reports whether the fast (mapped) path was used. -/
def endPrimitiveC {V : Type} (st : UIState V) :
    UIState V × List (UICall V) × Bool :=
  let uploaded : UIState V × List (UICall V) :=
    if st.backup then
      ({ st with vbo := writeRegion st.bufferCapacity st.vbo st.bufferOffset st.pending },
       [UICall.bufferSubData st.bufferOffset st.pending])
    else (st, [])
  let flushed := updateUniformsC uploaded.1
  let st2 := flushed.1
  let sub : UISubmission V :=
    { ptype := st.ptype
      first := st.first
      count := st.count
      vertices := readRegion st2.vbo st.bufferOffset st.currentCount
      uniforms := st2.gpuUniforms
      texture := st.currentTexture
      fastPath := !st.backup }
  ({ st2 with
      mapped := false
      backup := false
      bufferOffset := st.bufferOffset + st.currentCount
      pending := [] },
   uploaded.2 ++ flushed.2 ++ [UICall.drawCall sub], !st.backup)

/-- Modelled from the spec: DrawPrimitive body (gl33renderers.cpp, not under
src): fails silently (draws nothing, state unchanged) when the count is zero
or the vertex pointer is null; otherwise it is a begin/write/end cycle for a
single primitive with the given fully-formed vertex data. -/
def drawPrimitiveC {V : Type} (mapFails : Bool) (ty : PrimitiveType) (n : ℕ)
    (verts : Option (List V)) (st : UIState V) : UIState V × List (UICall V) :=
  match verts with
  | none => (st, [])
  | some vs =>
    if n = 0 then (st, [])
    else
      let b := beginPrimitiveC mapFails ty n st
      let w := writeVerticesC vs b.1
      let e := endPrimitiveC w.1
      (e.1, b.2 ++ w.2 ++ e.2.1)

/-- Modelled from the spec: Begin of the shared base contract
(graphics/core/renderers.h, not under src): rejected while already Active;
otherwise enters the Active state and binds the renderer's shader program. -/
def UIState.beginPass {V : Type} (st : UIState V) :
    Except RenderError (UIState V × List (UICall V)) :=
  if st.active then .error .alreadyActive
  else .ok ({ st with active := true }, [UICall.useProgram])

/-- Modelled from the spec: End of the shared base contract
(graphics/core/renderers.h, not under src): rejected while Idle; otherwise
returns to the Idle state. -/
def UIState.endPass {V : Type} (st : UIState V) :
    Except RenderError (UIState V × List (UICall V)) :=
  if st.active then .ok ({ st with active := false }, [])
  else .error .notActive

/-- Public SetColor: rejected while Idle (spec section 7), otherwise the
modelled body. -/
def UIState.setColor {V : Type} (c : Vec4) (st : UIState V) :
    Except RenderError (UIState V × List (UICall V)) :=
  if st.active then .ok (setColorC c st) else .error .notActive

/-- Public SetProjection: rejected while Idle, otherwise the modelled body. -/
def UIState.setProjection {V : Type} (l r b t : ℚ) (st : UIState V) :
    Except RenderError (UIState V × List (UICall V)) :=
  if st.active then .ok (setProjectionC l r b t st) else .error .notActive

/-- Public SetTexture: rejected while Idle, otherwise the modelled body. -/
def UIState.setTexture {V : Type} (t : ℕ) (st : UIState V) :
    Except RenderError (UIState V × List (UICall V)) :=
  if st.active then .ok (setTextureC t st) else .error .notActive

/-- Public SetTransparency: rejected while Idle, otherwise the modelled body. -/
def UIState.setTransparency {V : Type} (mode : TransparencyMode) (st : UIState V) :
    Except RenderError (UIState V × List (UICall V)) :=
  if st.active then .ok (setTransparencyC mode st) else .error .notActive

/-- Public BeginPrimitives: rejected while Idle; non-reentrant, so also
rejected while a primitive transaction is already open. -/
def UIState.beginPrimitives {V : Type} (mapFails : Bool) (ty : PrimitiveType)
    (counts : List ℕ) (st : UIState V) :
    Except RenderError (UIState V × List (UICall V)) :=
  if st.active then
    if st.mapped then .error .alreadyMapped
    else .ok (beginPrimitivesC mapFails ty counts st)
  else .error .notActive

/-- Public BeginPrimitive: the one-primitive case of BeginPrimitives. -/
def UIState.beginPrimitive {V : Type} (mapFails : Bool) (ty : PrimitiveType)
    (n : ℕ) (st : UIState V) :
    Except RenderError (UIState V × List (UICall V)) :=
  UIState.beginPrimitives mapFails ty [n] st

/-- Writing vertices through the pointer returned by BeginPrimitive(s): only
meaningful while a transaction is open. -/
def UIState.writeVertices {V : Type} (vs : List V) (st : UIState V) :
    Except RenderError (UIState V × List (UICall V)) :=
  if st.mapped then .ok (writeVerticesC vs st) else .error .notMapped

/-- Public EndPrimitive: rejected when no transaction is open; otherwise the
modelled body, whose boolean result reports the fast path. -/
def UIState.endPrimitive {V : Type} (st : UIState V) :
    Except RenderError (UIState V × List (UICall V) × Bool) :=
  if st.mapped then .ok (endPrimitiveC st) else .error .notMapped

/-- Public DrawPrimitive: rejected while Idle or while a primitive
transaction is open; otherwise the modelled body. -/
def UIState.drawPrimitive {V : Type} (mapFails : Bool) (ty : PrimitiveType)
    (n : ℕ) (verts : Option (List V)) (st : UIState V) :
    Except RenderError (UIState V × List (UICall V)) :=
  if st.active then
    if st.mapped then .error .alreadyMapped
    else .ok (drawPrimitiveC mapFails ty n verts st)
  else .error .notActive

/-- A SetColor/SetTexture/SetProjection call, for stating properties of all
sequences of uniform-affecting setters. -/
inductive UISetOp where
  | color (c : Vec4)
  | tex (t : ℕ)
  | proj (l r b t : ℚ)

/-- Run one setter (modelled body). -/
def applySetOp {V : Type} (op : UISetOp) (st : UIState V) :
    UIState V × List (UICall V) :=
  match op with
  | .color c => setColorC c st
  | .tex t => setTextureC t st
  | .proj l r b t => setProjectionC l r b t st

/-- Run a sequence of setters (modelled bodies), accumulating the trace. -/
def applySetOps {V : Type} : List UISetOp → UIState V → UIState V × List (UICall V)
  | [], st => (st, [])
  | op :: ops, st =>
    let s1 := applySetOp op st
    let s2 := applySetOps ops s1.1
    (s2.1, s1.2 ++ s2.2)

/-- Run a sequence of public setter calls, accumulating the trace. -/
def UIState.runSetOps {V : Type} : List UISetOp → UIState V →
    Except RenderError (UIState V × List (UICall V))
  | [], st => .ok (st, [])
  | op :: ops, st =>
    match (match op with
      | UISetOp.color c => st.setColor c
      | UISetOp.tex t => st.setTexture t
      | UISetOp.proj l r b t => st.setProjection l r b t) with
    | .error e => .error e
    | .ok s1 =>
      match UIState.runSetOps ops s1.1 with
      | .error e => .error e
      | .ok s2 => .ok (s2.1, s1.2 ++ s2.2)

/-- The color of the last SetColor call in the sequence, or the fallback. -/
def lastColorSpec (ops : List UISetOp) (d : Vec4) : Vec4 :=
  ops.foldl (fun acc op => match op with | .color c => c | _ => acc) d

/-- The projection matrix of the last SetProjection call, or the fallback. -/
def lastProjSpec (ops : List UISetOp) (d : Mat4) : Mat4 :=
  ops.foldl (fun acc op => match op with | .proj l r b t => ortho l r b t | _ => acc) d

/-- The resolved texture of the last SetTexture call, or the fallback. -/
def lastTexSpec (white : ℕ) (ops : List UISetOp) (d : ℕ) : ℕ :=
  ops.foldl (fun acc op => match op with | .tex t => resolveTexture white t | _ => acc) d

/-! ### CGL33TerrainRenderer -/

/-- A device call issued by the terrain renderer, recorded as a trace event.
Texture binds name the texture unit; shadow uniform binds name the region
slot index and carry the region parameters; the draw captures the transform
state the GPU reads at that moment. -/
inductive TerrainCall where
  | useProgram
  | bindTexture (unit : ℕ) (tex : ℕ)
  | uploadUniform
  | bindShadowUniforms (slot : ℕ) (p : ShadowParam)
  | drawCall (modelMatrix : Mat4) (normalMatrix : Mat3) (buffer : VertexBuffer)
deriving DecidableEq, Repr

/-- Number of texture-bind calls in a terrain renderer trace. -/
def terrainBindCount (calls : List TerrainCall) : ℕ :=
  (calls.filter (fun c => match c with | .bindTexture _ _ => true | _ => false)).length

/-- The shadow-uniform bind events of a terrain renderer trace, in order. -/
def shadowBindsOf (calls : List TerrainCall) : List (ℕ × ShadowParam) :=
  calls.filterMap (fun c => match c with
    | .bindShadowUniforms i p => some (i, p)
    | _ => none)

/-- Fixed texture unit of the albedo texture (m_albedoIndex of
gl33renderers.h). -/
def m_albedoIndex : ℕ := 4

/-- Fixed texture unit of the detail texture (m_detailIndex of
gl33renderers.h). -/
def m_detailIndex : ℕ := 5

/-- Fixed texture unit of the emissive texture (m_emissiveIndex of
gl33renderers.h). -/
def m_emissiveIndex : ℕ := 6

/-- Fixed texture unit of the material texture (m_materialIndex of
gl33renderers.h). -/
def m_materialIndex : ℕ := 7

/-- Fixed texture unit of the shadow map (m_shadowIndex of
gl33renderers.h). -/
def m_shadowIndex : ℕ := 8

/-- State of CGL33TerrainRenderer, mirroring the fields of gl33renderers.h:
the transform and material uniform caches, light/sky/fog parameters, the
shadow region set (m_shadowRegions plus up to four stored regions for the
four ShadowUniforms slots), and the five cached texture bindings
(m_albedoTexture, m_detailTexture, m_emissiveTexture, m_materialTexture,
m_shadowMap) next to m_whiteTexture.  The active flag is the shared
Idle/Active state machine; uniformsDirty records that some logical uniform
changed since the last flush. -/
structure TerrainState where
  active : Bool
  uniformsDirty : Bool
  projectionMatrix : Mat4
  viewMatrix : Mat4
  modelMatrix : Mat4
  normalMatrix : Mat3
  albedoColor : Color
  emissiveColor : Color
  roughness : ℚ
  metalness : ℚ
  aoStrength : ℚ
  lightPosition : Vec4
  lightIntensity : ℚ
  lightColor : Vec3
  skyColor : Color
  skyIntensity : ℚ
  fogMin : ℚ
  fogMax : ℚ
  fogColor : Vec3
  shadowRegions : ℕ
  shadowParams : List ShadowParam
  whiteTexture : ℕ
  albedoTexture : ℕ
  detailTexture : ℕ
  emissiveTexture : ℕ
  materialTexture : ℕ
  shadowMap : ℕ
deriving Repr

/-- Modelled from the spec: bodies of the terrain renderer's matrix setters
(gl33renderers.cpp, not under src): each stores its matrix and marks the
uniforms dirty; SetModelMatrix also recomputes the derived normal matrix as
the inverse-transpose of the model matrix's upper 3x3 block. -/
def terrainSetModelMatrixC (M : Mat4) (st : TerrainState) :
    TerrainState × List TerrainCall :=
  ({ st with modelMatrix := M
             normalMatrix := Mat3.inverseTranspose (Mat4.upper3 M)
             uniformsDirty := true }, [])

/-- Modelled from the spec: SetProjectionMatrix body of the terrain renderer. -/
def terrainSetProjectionMatrixC (M : Mat4) (st : TerrainState) :
    TerrainState × List TerrainCall :=
  ({ st with projectionMatrix := M, uniformsDirty := true }, [])

/-- Modelled from the spec: SetViewMatrix body of the terrain renderer. -/
def terrainSetViewMatrixC (M : Mat4) (st : TerrainState) :
    TerrainState × List TerrainCall :=
  ({ st with viewMatrix := M, uniformsDirty := true }, [])

/-- Modelled from the spec: SetAlbedoColor body of the terrain renderer. -/
def terrainSetAlbedoColorC (c : Color) (st : TerrainState) :
    TerrainState × List TerrainCall :=
  ({ st with albedoColor := c, uniformsDirty := true }, [])

/-- Modelled from the spec: SetEmissiveColor body of the terrain renderer. -/
def terrainSetEmissiveColorC (c : Color) (st : TerrainState) :
    TerrainState × List TerrainCall :=
  ({ st with emissiveColor := c, uniformsDirty := true }, [])

/-- Modelled from the spec: SetMaterialParams body of the terrain renderer. -/
def terrainSetMaterialParamsC (rough metal ao : ℚ) (st : TerrainState) :
    TerrainState × List TerrainCall :=
  ({ st with roughness := rough, metalness := metal, aoStrength := ao,
             uniformsDirty := true }, [])

/-- Modelled from the spec: SetLight body of the terrain renderer. -/
def terrainSetLightC (pos : Vec4) (intensity : ℚ) (c : Vec3) (st : TerrainState) :
    TerrainState × List TerrainCall :=
  ({ st with lightPosition := pos, lightIntensity := intensity, lightColor := c,
             uniformsDirty := true }, [])

/-- Modelled from the spec: SetSky body of the terrain renderer. -/
def terrainSetSkyC (c : Color) (intensity : ℚ) (st : TerrainState) :
    TerrainState × List TerrainCall :=
  ({ st with skyColor := c, skyIntensity := intensity, uniformsDirty := true }, [])

/-- Modelled from the spec: SetFog body of the terrain renderer. -/
def terrainSetFogC (fmin fmax : ℚ) (c : Vec3) (st : TerrainState) :
    TerrainState × List TerrainCall :=
  ({ st with fogMin := fmin, fogMax := fmax, fogColor := c,
             uniformsDirty := true }, [])

/-- Modelled from the spec: SetShadowParams body of the terrain renderer
(gl33renderers.cpp, not under src): replaces the shadow region set wholesale
with the given count (within the 0..4 contract) and entries, marking the
uniforms dirty so the next draw binds them. -/
def terrainSetShadowParamsC (ps : List ShadowParam) (st : TerrainState) :
    TerrainState × List TerrainCall :=
  ({ st with shadowRegions := ps.length, shadowParams := ps,
             uniformsDirty := true }, [])

/-- Modelled from the spec: SetAlbedoTexture body of the terrain renderer:
resolves an empty texture to white, binds on texture unit m_albedoIndex only
when the resolved handle differs from the cached binding. -/
def terrainSetAlbedoTextureC (t : ℕ) (st : TerrainState) :
    TerrainState × List TerrainCall :=
  let r := resolveTexture st.whiteTexture t
  if r = st.albedoTexture then (st, [])
  else ({ st with albedoTexture := r }, [TerrainCall.bindTexture m_albedoIndex r])

/-- Modelled from the spec: SetDetailTexture body of the terrain renderer. -/
def terrainSetDetailTextureC (t : ℕ) (st : TerrainState) :
    TerrainState × List TerrainCall :=
  let r := resolveTexture st.whiteTexture t
  if r = st.detailTexture then (st, [])
  else ({ st with detailTexture := r }, [TerrainCall.bindTexture m_detailIndex r])

/-- Modelled from the spec: SetEmissiveTexture body of the terrain renderer. -/
def terrainSetEmissiveTextureC (t : ℕ) (st : TerrainState) :
    TerrainState × List TerrainCall :=
  let r := resolveTexture st.whiteTexture t
  if r = st.emissiveTexture then (st, [])
  else ({ st with emissiveTexture := r }, [TerrainCall.bindTexture m_emissiveIndex r])

/-- Modelled from the spec: SetMaterialTexture body of the terrain renderer. -/
def terrainSetMaterialTextureC (t : ℕ) (st : TerrainState) :
    TerrainState × List TerrainCall :=
  let r := resolveTexture st.whiteTexture t
  if r = st.materialTexture then (st, [])
  else ({ st with materialTexture := r }, [TerrainCall.bindTexture m_materialIndex r])

/-- Modelled from the spec: SetShadowMap body of the terrain renderer. -/
def terrainSetShadowMapC (t : ℕ) (st : TerrainState) :
    TerrainState × List TerrainCall :=
  let r := resolveTexture st.whiteTexture t
  if r = st.shadowMap then (st, [])
  else ({ st with shadowMap := r }, [TerrainCall.bindTexture m_shadowIndex r])

/-- The shadow-uniform bind calls a flush issues: one per active region, in
input order, into the four ShadowUniforms slots. -/
def shadowBindCalls (st : TerrainState) : List TerrainCall :=
  (st.shadowParams.zip (List.range st.shadowParams.length)).map
    (fun pi => TerrainCall.bindShadowUniforms pi.2 pi.1)

/-- Modelled from the spec: DrawObject body of the terrain renderer
(gl33renderers.cpp, not under src): sets the model matrix (and its derived
normal matrix), lazily flushes any dirty uniforms (including the shadow
region set) and issues the draw on the externally owned vertex buffer. -/
def terrainDrawObjectC (M : Mat4) (buf : VertexBuffer) (st : TerrainState) :
    TerrainState × List TerrainCall :=
  let st1 := { st with modelMatrix := M
                       normalMatrix := Mat3.inverseTranspose (Mat4.upper3 M)
                       uniformsDirty := true }
  let flushCalls := if st1.uniformsDirty then
      TerrainCall.uploadUniform :: shadowBindCalls st1
    else []
  ({ st1 with uniformsDirty := false },
   flushCalls ++ [TerrainCall.drawCall M st1.normalMatrix buf])

/-- Modelled from the spec: Begin of the terrain renderer: rejected while
already Active; otherwise enters the Active state and binds the shader
program. -/
def TerrainState.beginPass (st : TerrainState) :
    Except RenderError (TerrainState × List TerrainCall) :=
  if st.active then .error .alreadyActive
  else .ok ({ st with active := true }, [TerrainCall.useProgram])

/-- Modelled from the spec: End of the terrain renderer: rejected while
Idle; otherwise returns to the Idle state. -/
def TerrainState.endPass (st : TerrainState) :
    Except RenderError (TerrainState × List TerrainCall) :=
  if st.active then .ok ({ st with active := false }, [])
  else .error .notActive

/-- Guard shared by every public terrain setter and draw: rejected while
Idle (spec section 7), otherwise the modelled body. -/
def terrainGuard (body : TerrainState → TerrainState × List TerrainCall)
    (st : TerrainState) : Except RenderError (TerrainState × List TerrainCall) :=
  if st.active then .ok (body st) else .error .notActive

/-- Public SetProjectionMatrix of the terrain renderer. -/
def TerrainState.setProjectionMatrix (M : Mat4) (st : TerrainState) :
    Except RenderError (TerrainState × List TerrainCall) :=
  terrainGuard (terrainSetProjectionMatrixC M) st

/-- Public SetViewMatrix of the terrain renderer. -/
def TerrainState.setViewMatrix (M : Mat4) (st : TerrainState) :
    Except RenderError (TerrainState × List TerrainCall) :=
  terrainGuard (terrainSetViewMatrixC M) st

/-- Public SetModelMatrix of the terrain renderer. -/
def TerrainState.setModelMatrix (M : Mat4) (st : TerrainState) :
    Except RenderError (TerrainState × List TerrainCall) :=
  terrainGuard (terrainSetModelMatrixC M) st

/-- Public SetAlbedoColor of the terrain renderer. -/
def TerrainState.setAlbedoColor (c : Color) (st : TerrainState) :
    Except RenderError (TerrainState × List TerrainCall) :=
  terrainGuard (terrainSetAlbedoColorC c) st

/-- Public SetAlbedoTexture of the terrain renderer. -/
def TerrainState.setAlbedoTexture (t : ℕ) (st : TerrainState) :
    Except RenderError (TerrainState × List TerrainCall) :=
  terrainGuard (terrainSetAlbedoTextureC t) st

/-- Public SetEmissiveColor of the terrain renderer. -/
def TerrainState.setEmissiveColor (c : Color) (st : TerrainState) :
    Except RenderError (TerrainState × List TerrainCall) :=
  terrainGuard (terrainSetEmissiveColorC c) st

/-- Public SetEmissiveTexture of the terrain renderer. -/
def TerrainState.setEmissiveTexture (t : ℕ) (st : TerrainState) :
    Except RenderError (TerrainState × List TerrainCall) :=
  terrainGuard (terrainSetEmissiveTextureC t) st

/-- Public SetMaterialParams of the terrain renderer. -/
def TerrainState.setMaterialParams (rough metal ao : ℚ) (st : TerrainState) :
    Except RenderError (TerrainState × List TerrainCall) :=
  terrainGuard (terrainSetMaterialParamsC rough metal ao) st

/-- Public SetMaterialTexture of the terrain renderer. -/
def TerrainState.setMaterialTexture (t : ℕ) (st : TerrainState) :
    Except RenderError (TerrainState × List TerrainCall) :=
  terrainGuard (terrainSetMaterialTextureC t) st

/-- Public SetDetailTexture of the terrain renderer. -/
def TerrainState.setDetailTexture (t : ℕ) (st : TerrainState) :
    Except RenderError (TerrainState × List TerrainCall) :=
  terrainGuard (terrainSetDetailTextureC t) st

/-- Public SetShadowMap of the terrain renderer. -/
def TerrainState.setShadowMap (t : ℕ) (st : TerrainState) :
    Except RenderError (TerrainState × List TerrainCall) :=
  terrainGuard (terrainSetShadowMapC t) st

/-- Public SetLight of the terrain renderer. -/
def TerrainState.setLight (pos : Vec4) (intensity : ℚ) (c : Vec3)
    (st : TerrainState) : Except RenderError (TerrainState × List TerrainCall) :=
  terrainGuard (terrainSetLightC pos intensity c) st

/-- Public SetSky of the terrain renderer. -/
def TerrainState.setSky (c : Color) (intensity : ℚ) (st : TerrainState) :
    Except RenderError (TerrainState × List TerrainCall) :=
  terrainGuard (terrainSetSkyC c intensity) st

/-- Public SetFog of the terrain renderer. -/
def TerrainState.setFog (fmin fmax : ℚ) (c : Vec3) (st : TerrainState) :
    Except RenderError (TerrainState × List TerrainCall) :=
  terrainGuard (terrainSetFogC fmin fmax c) st

/-- Public SetShadowParams of the terrain renderer: accepts a count of 0 to
4 regions, reading that many entries from the caller's array; a count beyond
4 is a caller contract violation and is rejected (spec section 7). -/
def TerrainState.setShadowParams (count : ℕ) (ps : List ShadowParam)
    (st : TerrainState) : Except RenderError (TerrainState × List TerrainCall) :=
  if st.active then
    if count ≤ 4 then .ok (terrainSetShadowParamsC (ps.take count) st)
    else .error .contractViolation
  else .error .notActive

/-- Public DrawObject of the terrain renderer. -/
def TerrainState.drawObject (M : Mat4) (buf : VertexBuffer) (st : TerrainState) :
    Except RenderError (TerrainState × List TerrainCall) :=
  terrainGuard (terrainDrawObjectC M buf) st

/-! ### CGL33ShadowRenderer -/

/-- A device call issued by the shadow renderer, recorded as a trace event. -/
inductive ShadowCall where
  | useProgram
  | bindFramebuffer
  | bindTexture (tex : ℕ)
  | uploadUniform
  | drawCall (buffer : VertexBuffer) (transparent : Bool)
deriving DecidableEq, Repr

/-- State of CGL33ShadowRenderer, mirroring the fields of gl33renderers.h:
the transform uniform caches, the alpha-scissor flag, the owned framebuffer
dimensions, and the cached texture binding.  The active flag is the shared
Idle/Active state machine. -/
structure ShadowState where
  active : Bool
  uniformsDirty : Bool
  projectionMatrix : Mat4
  viewMatrix : Mat4
  modelMatrix : Mat4
  regionOffset : Vec2
  regionScale : Vec2
  width : ℕ
  height : ℕ
  whiteTexture : ℕ
  currentTexture : ℕ
  shadowMap : ℕ
deriving Repr

/-- Modelled from the spec: Begin of the shadow renderer: rejected while
already Active; otherwise enters the Active state, binds the shader program
and the owned framebuffer. -/
def ShadowState.beginPass (st : ShadowState) :
    Except RenderError (ShadowState × List ShadowCall) :=
  if st.active then .error .alreadyActive
  else .ok ({ st with active := true },
    [ShadowCall.useProgram, ShadowCall.bindFramebuffer])

/-- Modelled from the spec: End of the shadow renderer: rejected while Idle;
otherwise returns to the Idle state. -/
def ShadowState.endPass (st : ShadowState) :
    Except RenderError (ShadowState × List ShadowCall) :=
  if st.active then .ok ({ st with active := false }, [])
  else .error .notActive

/-- Guard shared by every public shadow-renderer setter and draw. -/
def shadowGuard (body : ShadowState → ShadowState × List ShadowCall)
    (st : ShadowState) : Except RenderError (ShadowState × List ShadowCall) :=
  if st.active then .ok (body st) else .error .notActive

/-- Modelled from the spec: SetProjectionMatrix body of the shadow renderer. -/
def shadowSetProjectionMatrixC (M : Mat4) (st : ShadowState) :
    ShadowState × List ShadowCall :=
  ({ st with projectionMatrix := M, uniformsDirty := true }, [])

/-- Modelled from the spec: SetViewMatrix body of the shadow renderer. -/
def shadowSetViewMatrixC (M : Mat4) (st : ShadowState) :
    ShadowState × List ShadowCall :=
  ({ st with viewMatrix := M, uniformsDirty := true }, [])

/-- Modelled from the spec: SetModelMatrix body of the shadow renderer. -/
def shadowSetModelMatrixC (M : Mat4) (st : ShadowState) :
    ShadowState × List ShadowCall :=
  ({ st with modelMatrix := M, uniformsDirty := true }, [])

/-- Modelled from the spec: SetTexture body of the shadow renderer: resolves
an empty texture to white and binds only on change. -/
def shadowSetTextureC (t : ℕ) (st : ShadowState) : ShadowState × List ShadowCall :=
  let r := resolveTexture st.whiteTexture t
  if r = st.currentTexture then (st, [])
  else ({ st with currentTexture := r }, [ShadowCall.bindTexture r])

/-- Modelled from the spec: SetShadowRegion body of the shadow renderer:
maps this cascade's output into a sub-rectangle of the shared atlas. -/
def shadowSetShadowRegionC (offset scale : Vec2) (st : ShadowState) :
    ShadowState × List ShadowCall :=
  ({ st with regionOffset := offset, regionScale := scale,
             uniformsDirty := true }, [])

/-- Modelled from the spec: DrawObject body of the shadow renderer: flushes
dirty uniforms and draws the buffer with or without the alpha scissor. -/
def shadowDrawObjectC (buf : VertexBuffer) (transparent : Bool) (st : ShadowState) :
    ShadowState × List ShadowCall :=
  let flushCalls := if st.uniformsDirty then [ShadowCall.uploadUniform] else []
  ({ st with uniformsDirty := false },
   flushCalls ++ [ShadowCall.drawCall buf transparent])

/-- Public SetProjectionMatrix of the shadow renderer. -/
def ShadowState.setProjectionMatrix (M : Mat4) (st : ShadowState) :
    Except RenderError (ShadowState × List ShadowCall) :=
  shadowGuard (shadowSetProjectionMatrixC M) st

/-- Public SetViewMatrix of the shadow renderer. -/
def ShadowState.setViewMatrix (M : Mat4) (st : ShadowState) :
    Except RenderError (ShadowState × List ShadowCall) :=
  shadowGuard (shadowSetViewMatrixC M) st

/-- Public SetModelMatrix of the shadow renderer. -/
def ShadowState.setModelMatrix (M : Mat4) (st : ShadowState) :
    Except RenderError (ShadowState × List ShadowCall) :=
  shadowGuard (shadowSetModelMatrixC M) st

/-- Public SetTexture of the shadow renderer. -/
def ShadowState.setTexture (t : ℕ) (st : ShadowState) :
    Except RenderError (ShadowState × List ShadowCall) :=
  shadowGuard (shadowSetTextureC t) st

/-- Public SetShadowRegion of the shadow renderer. -/
def ShadowState.setShadowRegion (offset scale : Vec2) (st : ShadowState) :
    Except RenderError (ShadowState × List ShadowCall) :=
  shadowGuard (shadowSetShadowRegionC offset scale) st

/-- Public DrawObject of the shadow renderer. -/
def ShadowState.drawObject (buf : VertexBuffer) (transparent : Bool)
    (st : ShadowState) : Except RenderError (ShadowState × List ShadowCall) :=
  shadowGuard (shadowDrawObjectC buf transparent) st

/-! ### Initial states -/

/-- Initial state of a freshly constructed UI renderer: identity projection,
white tint, dirty uniform block, the 128 * 1024 vertex capacity declared in
gl33renderers.h, no open transaction, white texture on handle 1. -/
def initialUIState : UIState ℕ :=
  { active := false
    uniforms := { projectionMatrix := Mat4.id, color := ⟨1, 1, 1, 1⟩ }
    uniformsDirty := true
    gpuUniforms := { projectionMatrix := Mat4.zero, color := ⟨0, 0, 0, 0⟩ }
    transparency := .blendNone
    bufferCapacity := 128 * 1024
    bufferOffset := 0
    ptype := .triangles
    currentCount := 0
    first := []
    count := []
    mapped := false
    backup := false
    pending := []
    vbo := fun _ => none
    whiteTexture := 1
    currentTexture := 0 }

/-- Initial state of a freshly constructed terrain renderer. -/
def initialTerrainState : TerrainState :=
  { active := false
    uniformsDirty := true
    projectionMatrix := Mat4.id
    viewMatrix := Mat4.id
    modelMatrix := Mat4.id
    normalMatrix := Mat3.id
    albedoColor := ⟨1, 1, 1, 1⟩
    emissiveColor := ⟨0, 0, 0, 0⟩
    roughness := 1
    metalness := 0
    aoStrength := 0
    lightPosition := ⟨0, 0, 0, 0⟩
    lightIntensity := 0
    lightColor := ⟨1, 1, 1⟩
    skyColor := ⟨0, 0, 0, 0⟩
    skyIntensity := 0
    fogMin := 0
    fogMax := 0
    fogColor := ⟨0, 0, 0⟩
    shadowRegions := 0
    shadowParams := []
    whiteTexture := 1
    albedoTexture := 0
    detailTexture := 0
    emissiveTexture := 0
    materialTexture := 0
    shadowMap := 0 }

/-- Initial state of a freshly constructed shadow renderer. -/
def initialShadowState : ShadowState :=
  { active := false
    uniformsDirty := true
    projectionMatrix := Mat4.id
    viewMatrix := Mat4.id
    modelMatrix := Mat4.id
    regionOffset := ⟨0, 0⟩
    regionScale := ⟨1, 1⟩
    width := 0
    height := 0
    whiteTexture := 1
    currentTexture := 0
    shadowMap := 0 }

/-! ### Derived definitions used by the verification -/

/-- The core begin/write/end cycle: final state, full trace, fast-path flag. -/
def uiCycleC {V : Type} (mf : Bool) (ty : PrimitiveType) (counts : List ℕ)
    (vs : List V) (st : UIState V) : UIState V × List (UICall V) × Bool :=
  let b := beginPrimitivesC mf ty counts st
  let w := writeVerticesC vs b.1
  let e := endPrimitiveC w.1
  (e.1, b.2 ++ w.2 ++ e.2.1, e.2.2)

/-- Base offset a begin call opens its region at: the current offset, or zero
after a capacity-overrun reset. -/
def uiBase {V : Type} (counts : List ℕ) (st : UIState V) : ℕ :=
  if st.bufferCapacity < st.bufferOffset + counts.sum then 0 else st.bufferOffset

/-- Whether a cycle started in this state takes the fast mapped path. -/
def uiFast {V : Type} (mf : Bool) (counts : List ℕ) (st : UIState V) : Bool :=
  !(decide (st.bufferCapacity < st.bufferOffset + counts.sum) || mf)

/-- The uniform block contents the GPU sees after the lazy flush. -/
def uiFlushedUniforms {V : Type} (st : UIState V) : Uniforms :=
  if st.uniformsDirty then st.uniforms else st.gpuUniforms

/-- The one submission a begin/write/end cycle is expected to produce. -/
def uiExpectedSub {V : Type} (mf : Bool) (ty : PrimitiveType) (counts : List ℕ)
    (vs : List V) (st : UIState V) : UISubmission V :=
  { ptype := ty
    first := firsts (uiBase counts st) counts
    count := counts
    vertices := vs.map some
    uniforms := uiFlushedUniforms st
    texture := st.currentTexture
    fastPath := uiFast mf counts st }

/-- An Active UI renderer state to instantiate witnesses at. -/
def uiActiveState : UIState ℕ :=
  { initialUIState with active := true }

/-- Number of texture-bind calls in a shadow renderer trace. -/
def shadowBindCount (calls : List ShadowCall) : ℕ :=
  (calls.filter (fun c => match c with | .bindTexture _ => true | _ => false)).length

/-- An Active terrain renderer state to instantiate witnesses at. -/
def terrainActiveState : TerrainState :=
  { initialTerrainState with active := true }

/-- The draw events of a terrain renderer trace, in order. -/
def terrainDraws (calls : List TerrainCall) : List TerrainCall :=
  calls.filter (fun c => match c with | .drawCall _ _ _ => true | _ => false)

/-- Non-uniform scale (2, 1, 1) composed with a 90-degree rotation about the
z axis: a model matrix whose linear part is not orthogonal, so the normal
matrix genuinely differs from it. -/
def nonUniformScaleRotation : Mat4 :=
  ⟨0, -2, 0, 0, 1, 0, 0, 0, 0, 0, 1, 0, 0, 0, 0, 1⟩

/-- An Active shadow renderer state to instantiate witnesses at. -/
def shadowActiveState : ShadowState :=
  { initialShadowState with active := true }

/-- Four distinct shadow regions to instantiate witnesses at. -/
def witnessShadowParams : List ShadowParam :=
  [⟨Mat4.id, ⟨0, 0⟩, ⟨1, 1⟩⟩, ⟨Mat4.id, ⟨1, 0⟩, ⟨1, 1⟩⟩,
   ⟨Mat4.id, ⟨0, 1⟩, ⟨1, 1⟩⟩, ⟨Mat4.id, ⟨1, 1⟩, ⟨1, 1⟩⟩]

/-- One public operation of the terrain renderer, for quantifying over
arbitrary call sequences. -/
inductive TerrainOp where
  | beginOp
  | endOp
  | projectionMatrixOp (M : Mat4)
  | viewMatrixOp (M : Mat4)
  | modelMatrixOp (M : Mat4)
  | albedoColorOp (c : Color)
  | albedoTextureOp (t : ℕ)
  | emissiveColorOp (c : Color)
  | emissiveTextureOp (t : ℕ)
  | materialParamsOp (rough metal ao : ℚ)
  | materialTextureOp (t : ℕ)
  | detailTextureOp (t : ℕ)
  | shadowMapOp (t : ℕ)
  | lightOp (p : Vec4) (i : ℚ) (c : Vec3)
  | skyOp (c : Color) (i : ℚ)
  | shadowParamsOp (count : ℕ) (ps : List ShadowParam)
  | fogOp (fmin fmax : ℚ) (c : Vec3)
  | drawObjectOp (M : Mat4) (buf : VertexBuffer)

/-- Release-build semantics of one public terrain call (spec section 7: a
caller contract violation degrades gracefully to a no-op instead of
corrupting GPU state). -/
def runTerrainOp (op : TerrainOp) (st : TerrainState) :
    TerrainState × List TerrainCall :=
  let lift : Except RenderError (TerrainState × List TerrainCall) →
      TerrainState × List TerrainCall :=
    fun r => match r with | .ok p => p | .error _ => (st, [])
  match op with
  | .beginOp => lift st.beginPass
  | .endOp => lift st.endPass
  | .projectionMatrixOp M => lift (st.setProjectionMatrix M)
  | .viewMatrixOp M => lift (st.setViewMatrix M)
  | .modelMatrixOp M => lift (st.setModelMatrix M)
  | .albedoColorOp c => lift (st.setAlbedoColor c)
  | .albedoTextureOp t => lift (st.setAlbedoTexture t)
  | .emissiveColorOp c => lift (st.setEmissiveColor c)
  | .emissiveTextureOp t => lift (st.setEmissiveTexture t)
  | .materialParamsOp rough metal ao => lift (st.setMaterialParams rough metal ao)
  | .materialTextureOp t => lift (st.setMaterialTexture t)
  | .detailTextureOp t => lift (st.setDetailTexture t)
  | .shadowMapOp t => lift (st.setShadowMap t)
  | .lightOp p i c => lift (st.setLight p i c)
  | .skyOp c i => lift (st.setSky c i)
  | .shadowParamsOp count ps => lift (st.setShadowParams count ps)
  | .fogOp fmin fmax c => lift (st.setFog fmin fmax c)
  | .drawObjectOp M buf => lift (st.drawObject M buf)

/-- Run a sequence of public terrain calls under release-build semantics. -/
def runTerrainOps : List TerrainOp → TerrainState → TerrainState × List TerrainCall
  | [], st => (st, [])
  | op :: ops, st =>
    let s1 := runTerrainOp op st
    let s2 := runTerrainOps ops s1.1
    (s2.1, s1.2 ++ s2.2)

/-! ### Helper lemmas about the streaming-buffer bookkeeping -/

lemma firsts_length (base : ℕ) (cs : List ℕ) : (firsts base cs).length = cs.length := by
  induction cs generalizing base with
  | nil => rfl
  | cons c cs ih => simp [firsts, ih]

lemma sum_take_succ_nat (cs : List ℕ) (i : ℕ) (h : i < cs.length) :
    (cs.take (i + 1)).sum = (cs.take i).sum + cs.getD i 0 := by
  induction cs generalizing i with
  | nil => simp at h
  | cons c cs ih =>
    cases i with
    | zero => simp
    | succ j =>
      have hj : j < cs.length := by simpa using h
      simp only [List.take_succ_cons, List.sum_cons, List.getD_cons_succ, ih j hj]
      omega

lemma sum_take_mono_nat (cs : List ℕ) (i j : ℕ) (h : i ≤ j) :
    (cs.take i).sum ≤ (cs.take j).sum := by
  induction cs generalizing i j with
  | nil => simp
  | cons c cs ih =>
    cases i with
    | zero => simp
    | succ i' =>
      cases j with
      | zero => omega
      | succ j' =>
        have := ih i' j' (by omega)
        simp only [List.take_succ_cons, List.sum_cons]
        omega

lemma sum_take_le_sum_nat (cs : List ℕ) (i : ℕ) : (cs.take i).sum ≤ cs.sum := by
  induction cs generalizing i with
  | nil => simp
  | cons c cs ih =>
    cases i with
    | zero => simp
    | succ j =>
      simp only [List.take_succ_cons, List.sum_cons]
      have := ih j
      omega

lemma firsts_getD (base : ℕ) (cs : List ℕ) (j : ℕ) (h : j < cs.length) :
    (firsts base cs).getD j 0 = base + (cs.take j).sum := by
  induction cs generalizing base j with
  | nil => simp at h
  | cons c cs ih =>
    cases j with
    | zero => simp [firsts]
    | succ j' =>
      have hj : j' < cs.length := by simpa using h
      simp only [firsts, List.getD_cons_succ, List.take_succ_cons, List.sum_cons,
        ih (base + c) j' hj]
      omega

lemma map_getElem?_range {V : Type} (vs : List V) :
    (List.range vs.length).map (fun i => vs[i]?) = vs.map some := by
  induction vs with
  | nil => simp
  | cons v tl ih =>
    simp only [List.length_cons, List.range_succ_eq_map, List.map_cons, List.map_map]
    have h : ((fun i => (v :: tl)[i]?) ∘ Nat.succ) = fun i => tl[i]? := by
      funext i
      simp
    simp [h, ih]

lemma readRegion_writeRegion {V : Type} (cap off : ℕ) (f : ℕ → Option V)
    (vs : List V) (h : off + vs.length ≤ cap) :
    readRegion (writeRegion cap f off vs) off vs.length = vs.map some := by
  rw [← map_getElem?_range vs]
  unfold readRegion writeRegion
  refine List.map_congr_left ?_
  intro i hi
  have hi' : i < vs.length := List.mem_range.mp hi
  have hcond : off + i < cap ∧ off ≤ off + i ∧ off + i < off + vs.length := by omega
  simp [hcond, Nat.add_sub_cancel_left]

/-! ### Helper lemmas about setter sequences of the UI renderer -/

lemma applySetOp_active {V : Type} (op : UISetOp) (st : UIState V) :
    (applySetOp op st).1.active = st.active := by
  cases op with
  | color c => rfl
  | proj l r b t => rfl
  | tex t =>
    simp only [applySetOp, setTextureC]
    split
    · rfl
    · rfl

lemma runSetOps_eq_ok {V : Type} (ops : List UISetOp) (st : UIState V)
    (h : st.active = true) :
    UIState.runSetOps ops st = .ok (applySetOps ops st) := by
  induction ops generalizing st with
  | nil => rfl
  | cons op ops ih =>
    have h1 : (applySetOp op st).1.active = true := by
      rw [applySetOp_active]
      exact h
    cases op with
    | color c =>
      have h2 : (setColorC c st).1.active = true := h1
      simp only [UIState.runSetOps, UIState.setColor, h, if_true]
      rw [ih _ h2]
      rfl
    | proj l r b t =>
      have h2 : (setProjectionC l r b t st).1.active = true := h1
      simp only [UIState.runSetOps, UIState.setProjection, h, if_true]
      rw [ih _ h2]
      rfl
    | tex t =>
      have h2 : (setTextureC t st).1.active = true := h1
      simp only [UIState.runSetOps, UIState.setTexture, h, if_true]
      rw [ih _ h2]
      rfl

/-- One setter step leaves every component other than the host uniform
block, the dirty flag and the cached texture untouched. -/
lemma applySetOp_frame {V : Type} (op : UISetOp) (st : UIState V) :
    (applySetOp op st).1.gpuUniforms = st.gpuUniforms ∧
    (applySetOp op st).1.active = st.active ∧
    (applySetOp op st).1.mapped = st.mapped ∧
    (applySetOp op st).1.backup = st.backup ∧
    (applySetOp op st).1.whiteTexture = st.whiteTexture ∧
    (applySetOp op st).1.bufferCapacity = st.bufferCapacity ∧
    (applySetOp op st).1.bufferOffset = st.bufferOffset ∧
    (applySetOp op st).1.pending = st.pending ∧
    (applySetOp op st).1.vbo = st.vbo ∧
    (applySetOp op st).1.ptype = st.ptype ∧
    (applySetOp op st).1.first = st.first ∧
    (applySetOp op st).1.count = st.count ∧
    (applySetOp op st).1.currentCount = st.currentCount := by
  cases op with
  | color c => simp [applySetOp, setColorC]
  | proj l r b t => simp [applySetOp, setProjectionC]
  | tex t =>
    simp only [applySetOp, setTextureC]
    split <;> simp

/-- A setter sequence leaves every component other than the host uniform
block, the dirty flag and the cached texture untouched. -/
lemma applySetOps_frame {V : Type} (ops : List UISetOp) (st : UIState V) :
    (applySetOps ops st).1.gpuUniforms = st.gpuUniforms ∧
    (applySetOps ops st).1.active = st.active ∧
    (applySetOps ops st).1.mapped = st.mapped ∧
    (applySetOps ops st).1.backup = st.backup ∧
    (applySetOps ops st).1.whiteTexture = st.whiteTexture ∧
    (applySetOps ops st).1.bufferCapacity = st.bufferCapacity ∧
    (applySetOps ops st).1.bufferOffset = st.bufferOffset ∧
    (applySetOps ops st).1.pending = st.pending ∧
    (applySetOps ops st).1.vbo = st.vbo ∧
    (applySetOps ops st).1.ptype = st.ptype ∧
    (applySetOps ops st).1.first = st.first ∧
    (applySetOps ops st).1.count = st.count ∧
    (applySetOps ops st).1.currentCount = st.currentCount := by
  induction ops generalizing st with
  | nil => simp [applySetOps]
  | cons op ops ih =>
    obtain ⟨g1, a1, m1, b1, w1, c1, o1, p1, v1, t1, f1, n1, cc1⟩ :=
      applySetOp_frame op st
    obtain ⟨g2, a2, m2, b2, w2, c2, o2, p2, v2, t2, f2, n2, cc2⟩ :=
      ih (applySetOp op st).1
    exact ⟨g2.trans g1, a2.trans a1, m2.trans m1, b2.trans b1, w2.trans w1,
      c2.trans c1, o2.trans o1, p2.trans p1, v2.trans v1, t2.trans t1,
      f2.trans f1, n2.trans n1, cc2.trans cc1⟩

/-- Last-write-wins for the tint color through a setter sequence. -/
lemma applySetOps_color {V : Type} (ops : List UISetOp) (st : UIState V) :
    (applySetOps ops st).1.uniforms.color = lastColorSpec ops st.uniforms.color := by
  induction ops generalizing st with
  | nil => rfl
  | cons op ops ih =>
    cases op with
    | color c =>
      simpa [applySetOps, applySetOp, setColorC, lastColorSpec] using
        ih (applySetOp (UISetOp.color c) st).1
    | proj l r b t =>
      simpa [applySetOps, applySetOp, setProjectionC, lastColorSpec] using
        ih (applySetOp (UISetOp.proj l r b t) st).1
    | tex t =>
      by_cases hc : resolveTexture st.whiteTexture t = st.currentTexture
      · simpa [applySetOps, applySetOp, setTextureC, hc, lastColorSpec] using ih st
      · simpa [applySetOps, applySetOp, setTextureC, hc, lastColorSpec] using
          ih { st with currentTexture := resolveTexture st.whiteTexture t }

/-- Last-write-wins for the projection matrix through a setter sequence. -/
lemma applySetOps_proj {V : Type} (ops : List UISetOp) (st : UIState V) :
    (applySetOps ops st).1.uniforms.projectionMatrix
      = lastProjSpec ops st.uniforms.projectionMatrix := by
  induction ops generalizing st with
  | nil => rfl
  | cons op ops ih =>
    cases op with
    | color c =>
      simpa [applySetOps, applySetOp, setColorC, lastProjSpec] using
        ih (applySetOp (UISetOp.color c) st).1
    | proj l r b t =>
      simpa [applySetOps, applySetOp, setProjectionC, lastProjSpec] using
        ih (applySetOp (UISetOp.proj l r b t) st).1
    | tex t =>
      by_cases hc : resolveTexture st.whiteTexture t = st.currentTexture
      · simpa [applySetOps, applySetOp, setTextureC, hc, lastProjSpec] using ih st
      · simpa [applySetOps, applySetOp, setTextureC, hc, lastProjSpec] using
          ih { st with currentTexture := resolveTexture st.whiteTexture t }

/-- Last-write-wins for the cached texture through a setter sequence. -/
lemma applySetOps_tex {V : Type} (ops : List UISetOp) (st : UIState V) :
    (applySetOps ops st).1.currentTexture
      = lastTexSpec st.whiteTexture ops st.currentTexture := by
  induction ops generalizing st with
  | nil => rfl
  | cons op ops ih =>
    cases op with
    | color c =>
      simpa [applySetOps, applySetOp, setColorC, lastTexSpec] using
        ih (applySetOp (UISetOp.color c) st).1
    | proj l r b t =>
      simpa [applySetOps, applySetOp, setProjectionC, lastTexSpec] using
        ih (applySetOp (UISetOp.proj l r b t) st).1
    | tex t =>
      by_cases hc : resolveTexture st.whiteTexture t = st.currentTexture
      · simpa [applySetOps, applySetOp, setTextureC, hc, lastTexSpec] using ih st
      · simpa [applySetOps, applySetOp, setTextureC, hc, lastTexSpec] using
          ih { st with currentTexture := resolveTexture st.whiteTexture t }

/-- A single SetTexture step never changes the host uniform block or the
dirty flag. -/
lemma applySetOp_tex_uniforms {V : Type} (t : ℕ) (st : UIState V) :
    (applySetOp (UISetOp.tex t) st).1.uniformsDirty = st.uniformsDirty ∧
    (applySetOp (UISetOp.tex t) st).1.uniforms = st.uniforms := by
  simp only [applySetOp, setTextureC]
  split <;> simp

/-- If the uniform block is clean after a setter sequence, it was clean
before and no SetColor/SetProjection ran: the host block is unchanged. -/
lemma applySetOps_dirty {V : Type} (ops : List UISetOp) (st : UIState V) :
    (applySetOps ops st).1.uniformsDirty = false →
      st.uniformsDirty = false ∧ (applySetOps ops st).1.uniforms = st.uniforms := by
  induction ops generalizing st with
  | nil =>
    intro h
    exact ⟨h, rfl⟩
  | cons op ops ih =>
    intro h
    have h' : (applySetOps ops (applySetOp op st).1).1.uniformsDirty = false := by
      simpa [applySetOps] using h
    obtain ⟨hd, hu⟩ := ih (applySetOp op st).1 h'
    cases op with
    | color c => simp [applySetOp, setColorC] at hd
    | proj l r b t => simp [applySetOp, setProjectionC] at hd
    | tex t =>
      obtain ⟨hd0, hu0⟩ := applySetOp_tex_uniforms t st
      refine ⟨hd0 ▸ hd, ?_⟩
      have : (applySetOps (UISetOp.tex t :: ops) st).1
          = (applySetOps ops (applySetOp (UISetOp.tex t) st).1).1 := by
        simp [applySetOps]
      rw [this, hu, hu0]

/-! ### Helper lemmas about the begin/write/end primitive cycle -/

lemma uiCycleC_spec {V : Type} (mf : Bool) (ty : PrimitiveType) (counts : List ℕ)
    (vs : List V) (st : UIState V)
    (hlen : vs.length = counts.sum) (hcap : counts.sum ≤ st.bufferCapacity) :
    uiDraws (uiCycleC mf ty counts vs st).2.1 = [uiExpectedSub mf ty counts vs st] ∧
    (uiCycleC mf ty counts vs st).2.2 = uiFast mf counts st ∧
    (uiCycleC mf ty counts vs st).1.gpuUniforms = uiFlushedUniforms st ∧
    (uiCycleC mf ty counts vs st).1.uniforms = st.uniforms ∧
    (uiCycleC mf ty counts vs st).1.uniformsDirty = false ∧
    (uiCycleC mf ty counts vs st).1.mapped = false ∧
    (uiCycleC mf ty counts vs st).1.backup = false ∧
    (uiCycleC mf ty counts vs st).1.active = st.active ∧
    (uiCycleC mf ty counts vs st).1.currentTexture = st.currentTexture ∧
    (uiCycleC mf ty counts vs st).1.whiteTexture = st.whiteTexture ∧
    (uiCycleC mf ty counts vs st).1.bufferCapacity = st.bufferCapacity ∧
    (uiCycleC mf ty counts vs st).1.bufferOffset = uiBase counts st + counts.sum := by
  by_cases hov : st.bufferCapacity < st.bufferOffset + counts.sum
  · have hv : readRegion (writeRegion st.bufferCapacity st.vbo 0 vs) 0 counts.sum
        = vs.map some := by
      rw [← hlen]
      exact readRegion_writeRegion _ _ _ _ (by omega)
    cases hd : st.uniformsDirty <;>
      simp [uiCycleC, beginPrimitivesC, writeVerticesC, endPrimitiveC,
        updateUniformsC, uiBase, uiFast, uiFlushedUniforms, uiExpectedSub,
        uiDraws, UICall.drawOf, hov, hd, hv]
  · have hov' : st.bufferOffset + counts.sum ≤ st.bufferCapacity := by omega
    have hv : readRegion
        (writeRegion st.bufferCapacity st.vbo st.bufferOffset vs)
        st.bufferOffset counts.sum = vs.map some := by
      rw [← hlen]
      exact readRegion_writeRegion _ _ _ _ (by omega)
    cases hmf : mf <;> cases hd : st.uniformsDirty <;>
      simp [uiCycleC, beginPrimitivesC, writeVerticesC, endPrimitiveC,
        updateUniformsC, uiBase, uiFast, uiFlushedUniforms, uiExpectedSub,
        uiDraws, UICall.drawOf, hov, hd, hv]

/-- The public begin/write/end calls succeed from an Active, unmapped state
and agree with the core cycle. -/
lemma publicCycle_eq {V : Type} (mf : Bool) (ty : PrimitiveType)
    (counts : List ℕ) (vs : List V) (st : UIState V)
    (ha : st.active = true) (hm : st.mapped = false) :
    st.beginPrimitives mf ty counts = .ok (beginPrimitivesC mf ty counts st) ∧
    (beginPrimitivesC mf ty counts st).1.writeVertices vs
      = .ok (writeVerticesC vs (beginPrimitivesC mf ty counts st).1) ∧
    (writeVerticesC vs (beginPrimitivesC mf ty counts st).1).1.endPrimitive
      = .ok (endPrimitiveC (writeVerticesC vs (beginPrimitivesC mf ty counts st).1).1) := by
  have hb : (beginPrimitivesC mf ty counts st).1.mapped = true := by
    simp [beginPrimitivesC]
  have hw : (writeVerticesC vs (beginPrimitivesC mf ty counts st).1).1.mapped = true := by
    simp only [writeVerticesC]
    split <;> simpa using hb
  refine ⟨?_, ?_, ?_⟩
  · simp [UIState.beginPrimitives, ha, hm]
  · simp [UIState.writeVertices, hb]
  · simp [UIState.endPrimitive, hw]

/-- What EndPrimitive alone does to the uniform state: the submission and
the final state carry the flushed uniform block, and the dirty flag falls. -/
lemma endPrimitiveC_uniforms {V : Type} (st : UIState V) :
    ∃ sub : UISubmission V,
      uiDraws (endPrimitiveC st).2.1 = [sub] ∧
      sub.uniforms = uiFlushedUniforms st ∧
      sub.texture = st.currentTexture ∧
      sub.count = st.count ∧
      (endPrimitiveC st).1.gpuUniforms = uiFlushedUniforms st ∧
      (endPrimitiveC st).1.uniforms = st.uniforms ∧
      (endPrimitiveC st).1.uniformsDirty = false := by
  cases hb : st.backup <;> cases hd : st.uniformsDirty <;>
    simp [endPrimitiveC, updateUniformsC, uiFlushedUniforms, uiDraws,
      UICall.drawOf, hb, hd]

/-! ### Claim theorems -/

/-- C2: for every BeginPrimitive(type, N) with N vertices written followed by
EndPrimitive(), the resulting draw call covers exactly N vertices whether the
fast mapped path or the fallback (backup-buffer) path was taken; when the
request would exceed buffer capacity (offset + count > capacity) the fallback
path is used, and no vertex data is lost (the submitted region holds exactly
the written vertices; earlier submissions are immutable trace values). -/
theorem uiPrimitiveCycle_path_transparency {V : Type} (mf : Bool)
    (ty : PrimitiveType) (n : ℕ) (vs : List V) (st : UIState V)
    (ha : st.active = true) (hm : st.mapped = false)
    (hlen : vs.length = n) (hcap : n ≤ st.bufferCapacity) :
    ∃ st1 c1 st2 c2 st3 c3 fast sub,
      st.beginPrimitive mf ty n = .ok (st1, c1) ∧
      st1.writeVertices vs = .ok (st2, c2) ∧
      st2.endPrimitive = .ok (st3, c3, fast) ∧
      uiDraws (c1 ++ c2 ++ c3) = [sub] ∧
      sub.count = [n] ∧
      sub.count.sum = n ∧
      sub.vertices = vs.map some ∧
      sub.vertices.length = n ∧
      (st.bufferCapacity < st.bufferOffset + n → fast = false ∧ sub.fastPath = false) ∧
      (mf = true → fast = false ∧ sub.fastPath = false) ∧
      (¬st.bufferCapacity < st.bufferOffset + n → mf = false →
        fast = true ∧ sub.fastPath = true) := by
  have hlen' : vs.length = ([n] : List ℕ).sum := by simpa using hlen
  have hcap' : ([n] : List ℕ).sum ≤ st.bufferCapacity := by simpa using hcap
  obtain ⟨h1, h2, h3⟩ := publicCycle_eq mf ty [n] vs st ha hm
  obtain ⟨hdra, hfast, -, -, -, -, -, -, -, -, -, -⟩ :=
    uiCycleC_spec mf ty [n] vs st hlen' hcap'
  refine ⟨(beginPrimitivesC mf ty [n] st).1, (beginPrimitivesC mf ty [n] st).2,
    (writeVerticesC vs (beginPrimitivesC mf ty [n] st).1).1,
    (writeVerticesC vs (beginPrimitivesC mf ty [n] st).1).2,
    (endPrimitiveC (writeVerticesC vs (beginPrimitivesC mf ty [n] st).1).1).1,
    (endPrimitiveC (writeVerticesC vs (beginPrimitivesC mf ty [n] st).1).1).2.1,
    (endPrimitiveC (writeVerticesC vs (beginPrimitivesC mf ty [n] st).1).1).2.2,
    uiExpectedSub mf ty [n] vs st, h1, h2, h3, ?_, ?_, ?_, ?_, ?_, ?_, ?_, ?_⟩
  · simpa [uiCycleC] using hdra
  · simp [uiExpectedSub]
  · simp [uiExpectedSub]
  · simp [uiExpectedSub]
  · simp [uiExpectedSub, hlen]
  · intro hov
    constructor
    · rw [show (endPrimitiveC (writeVerticesC vs (beginPrimitivesC mf ty [n] st).1).1).2.2
          = (uiCycleC mf ty [n] vs st).2.2 from rfl, hfast]
      simp [uiFast, hov]
    · simp [uiExpectedSub, uiFast, hov]
  · intro hmf
    constructor
    · rw [show (endPrimitiveC (writeVerticesC vs (beginPrimitivesC mf ty [n] st).1).1).2.2
          = (uiCycleC mf ty [n] vs st).2.2 from rfl, hfast]
      simp [uiFast, hmf]
    · simp [uiExpectedSub, uiFast, hmf]
  · intro hov hmf
    constructor
    · rw [show (endPrimitiveC (writeVerticesC vs (beginPrimitivesC mf ty [n] st).1).1).2.2
          = (uiCycleC mf ty [n] vs st).2.2 from rfl, hfast]
      simp [uiFast, hov, hmf]
    · simp [uiExpectedSub, uiFast, hov, hmf]

theorem uiPrimitiveCycle_path_transparency_witness :
    uiActiveState.active = true ∧ (2 : ℕ) ≤ uiActiveState.bufferCapacity ∧
    (∃ st1 c1 st2 c2 st3 c3 fast sub,
      uiActiveState.beginPrimitive false PrimitiveType.triangles 2 = .ok (st1, c1) ∧
      st1.writeVertices [10, 20] = .ok (st2, c2) ∧
      st2.endPrimitive = .ok (st3, c3, fast) ∧
      uiDraws (c1 ++ c2 ++ c3) = [sub] ∧
      sub.count = [2] ∧
      sub.count.sum = 2 ∧
      sub.vertices = [10, 20].map some ∧
      sub.vertices.length = 2 ∧
      (uiActiveState.bufferCapacity < uiActiveState.bufferOffset + 2 →
        fast = false ∧ sub.fastPath = false) ∧
      (false = true → fast = false ∧ sub.fastPath = false) ∧
      (¬uiActiveState.bufferCapacity < uiActiveState.bufferOffset + 2 → false = false →
        fast = true ∧ sub.fastPath = true)) :=
  ⟨rfl, by decide,
    uiPrimitiveCycle_path_transparency false PrimitiveType.triangles 2 [10, 20]
      uiActiveState rfl rfl rfl (by decide)⟩

/-- C4: for every BeginPrimitives(type, drawCount, counts) followed by
EndPrimitive(), exactly one GPU submission is produced, describing one
sub-range per entry of counts, whose lengths equal the entries of counts in
order, at mutually non-overlapping offsets lying within the written region. -/
theorem uiBatchedPrimitives_subranges {V : Type} (mf : Bool)
    (ty : PrimitiveType) (counts : List ℕ) (vs : List V) (st : UIState V)
    (ha : st.active = true) (hm : st.mapped = false)
    (hlen : vs.length = counts.sum) (hcap : counts.sum ≤ st.bufferCapacity) :
    ∃ st1 c1 st2 c2 st3 c3 fast sub,
      st.beginPrimitives mf ty counts = .ok (st1, c1) ∧
      st1.writeVertices vs = .ok (st2, c2) ∧
      st2.endPrimitive = .ok (st3, c3, fast) ∧
      uiDraws (c1 ++ c2 ++ c3) = [sub] ∧
      sub.count = counts ∧
      sub.first.length = counts.length ∧
      (∀ i j, i < j → j < counts.length →
        sub.first.getD i 0 + sub.count.getD i 0 ≤ sub.first.getD j 0) ∧
      (∀ i, i < counts.length →
        uiBase counts st ≤ sub.first.getD i 0 ∧
        sub.first.getD i 0 + sub.count.getD i 0 ≤ uiBase counts st + counts.sum) := by
  obtain ⟨h1, h2, h3⟩ := publicCycle_eq mf ty counts vs st ha hm
  obtain ⟨hdra, -, -, -, -, -, -, -, -, -, -, -⟩ :=
    uiCycleC_spec mf ty counts vs st hlen hcap
  refine ⟨(beginPrimitivesC mf ty counts st).1, (beginPrimitivesC mf ty counts st).2,
    (writeVerticesC vs (beginPrimitivesC mf ty counts st).1).1,
    (writeVerticesC vs (beginPrimitivesC mf ty counts st).1).2,
    (endPrimitiveC (writeVerticesC vs (beginPrimitivesC mf ty counts st).1).1).1,
    (endPrimitiveC (writeVerticesC vs (beginPrimitivesC mf ty counts st).1).1).2.1,
    (endPrimitiveC (writeVerticesC vs (beginPrimitivesC mf ty counts st).1).1).2.2,
    uiExpectedSub mf ty counts vs st, h1, h2, h3, ?_, ?_, ?_, ?_, ?_⟩
  · simpa [uiCycleC] using hdra
  · simp [uiExpectedSub]
  · simp [uiExpectedSub, firsts_length]
  · intro i j hij hj
    have hi : i < counts.length := lt_trans hij hj
    simp only [uiExpectedSub]
    rw [firsts_getD _ _ _ hi, firsts_getD _ _ _ hj]
    have hs1 := sum_take_succ_nat counts i hi
    have hs2 := sum_take_mono_nat counts (i + 1) j hij
    omega
  · intro i hi
    simp only [uiExpectedSub]
    rw [firsts_getD _ _ _ hi]
    have hs1 := sum_take_succ_nat counts i hi
    have hs2 := sum_take_le_sum_nat counts (i + 1)
    omega

theorem uiBatchedPrimitives_subranges_witness :
    uiActiveState.active = true ∧
    ([2, 5, 4] : List ℕ).sum ≤ uiActiveState.bufferCapacity ∧
    (∃ st1 c1 st2 c2 st3 c3 fast sub,
      uiActiveState.beginPrimitives false PrimitiveType.lineStrip [2, 5, 4]
        = .ok (st1, c1) ∧
      st1.writeVertices [0, 1, 2, 3, 4, 5, 6, 7, 8, 9, 10] = .ok (st2, c2) ∧
      st2.endPrimitive = .ok (st3, c3, fast) ∧
      uiDraws (c1 ++ c2 ++ c3) = [sub] ∧
      sub.count = [2, 5, 4] ∧
      sub.first.length = ([2, 5, 4] : List ℕ).length ∧
      (∀ i j, i < j → j < ([2, 5, 4] : List ℕ).length →
        sub.first.getD i 0 + sub.count.getD i 0 ≤ sub.first.getD j 0) ∧
      (∀ i, i < ([2, 5, 4] : List ℕ).length →
        uiBase [2, 5, 4] uiActiveState ≤ sub.first.getD i 0 ∧
        sub.first.getD i 0 + sub.count.getD i 0
          ≤ uiBase [2, 5, 4] uiActiveState + ([2, 5, 4] : List ℕ).sum)) :=
  ⟨rfl, by decide,
    uiBatchedPrimitives_subranges false PrimitiveType.lineStrip [2, 5, 4]
      [0, 1, 2, 3, 4, 5, 6, 7, 8, 9, 10] uiActiveState rfl rfl rfl (by decide)⟩

/-- C8: DrawPrimitive(type, count, vertices) on the UI renderer draws
nothing (no GPU calls at all, state unchanged and still usable) whenever
count is zero or the vertex pointer is null; for all other inputs it equals
the BeginPrimitive/write/EndPrimitive cycle for a single primitive. -/
theorem uiDrawPrimitive_silent_failure {V : Type} (st : UIState V)
    (ha : st.active = true) (hm : st.mapped = false) :
    (∀ mf ty verts, st.drawPrimitive mf ty 0 verts = .ok (st, [])) ∧
    (∀ mf ty n, st.drawPrimitive mf ty n none = .ok (st, [])) ∧
    (∀ mf ty n vs, n ≠ 0 →
      st.drawPrimitive mf ty n (some vs)
        = .ok ((uiCycleC mf ty [n] vs st).1, (uiCycleC mf ty [n] vs st).2.1)) := by
  refine ⟨?_, ?_, ?_⟩
  · intro mf ty verts
    cases verts <;> simp [UIState.drawPrimitive, drawPrimitiveC, ha, hm]
  · intro mf ty n
    simp [UIState.drawPrimitive, drawPrimitiveC, ha, hm]
  · intro mf ty n vs hn
    simp [UIState.drawPrimitive, drawPrimitiveC, beginPrimitiveC, uiCycleC,
      ha, hm, hn]

theorem uiDrawPrimitive_silent_failure_witness :
    uiActiveState.drawPrimitive false PrimitiveType.triangles 0 (some [7])
        = .ok (uiActiveState, []) ∧
    uiActiveState.drawPrimitive false PrimitiveType.triangles 3 none
        = .ok (uiActiveState, []) ∧
    uiActiveState.drawPrimitive false PrimitiveType.triangles 1 (some [7])
        = .ok ((uiCycleC false PrimitiveType.triangles [1] [7] uiActiveState).1,
              (uiCycleC false PrimitiveType.triangles [1] [7] uiActiveState).2.1) :=
  ⟨(uiDrawPrimitive_silent_failure uiActiveState rfl rfl).1 false
      PrimitiveType.triangles (some [7]),
   (uiDrawPrimitive_silent_failure uiActiveState rfl rfl).2.1 false
      PrimitiveType.triangles 3,
   (uiDrawPrimitive_silent_failure uiActiveState rfl rfl).2.2 false
      PrimitiveType.triangles 1 [7] (by decide)⟩

/-- C1: for every sequence of SetColor/SetTexture/SetProjection calls on the
UI renderer followed by a draw (EndPrimitive or DrawPrimitive), the uniform
block uploaded to the GPU at that draw reflects exactly the last value set
for each field, and the GPU copy is never stale at the moment the draw
executes: the submission carries the host uniform block, and afterwards the
GPU copy equals the host copy.  The clean-implies-synced hypothesis is the
invariant every reachable state satisfies (a fresh renderer starts dirty and
every draw re-establishes it). -/
theorem uiRenderer_uniform_lastWriteWins {V : Type} (ops : List UISetOp)
    (st : UIState V) (ha : st.active = true)
    (hwf : st.uniformsDirty = false → st.gpuUniforms = st.uniforms) :
    ∃ st1 calls1,
      UIState.runSetOps ops st = .ok (st1, calls1) ∧
      st1.uniforms.color = lastColorSpec ops st.uniforms.color ∧
      st1.uniforms.projectionMatrix = lastProjSpec ops st.uniforms.projectionMatrix ∧
      st1.currentTexture = lastTexSpec st.whiteTexture ops st.currentTexture ∧
      (st.mapped = true →
        ∃ st2 calls2 fast sub,
          st1.endPrimitive = .ok (st2, calls2, fast) ∧
          uiDraws calls2 = [sub] ∧
          sub.uniforms = st1.uniforms ∧
          sub.uniforms.color = lastColorSpec ops st.uniforms.color ∧
          sub.uniforms.projectionMatrix
            = lastProjSpec ops st.uniforms.projectionMatrix ∧
          sub.texture = lastTexSpec st.whiteTexture ops st.currentTexture ∧
          st2.gpuUniforms = st2.uniforms ∧
          st2.uniformsDirty = false) ∧
      (∀ mf ty n vs, st.mapped = false → n ≠ 0 → vs.length = n →
        n ≤ st.bufferCapacity →
        ∃ st2 calls2 sub,
          st1.drawPrimitive mf ty n (some vs) = .ok (st2, calls2) ∧
          uiDraws calls2 = [sub] ∧
          sub.uniforms = st1.uniforms ∧
          sub.uniforms.color = lastColorSpec ops st.uniforms.color ∧
          sub.uniforms.projectionMatrix
            = lastProjSpec ops st.uniforms.projectionMatrix ∧
          sub.texture = lastTexSpec st.whiteTexture ops st.currentTexture ∧
          st2.gpuUniforms = st2.uniforms ∧
          st2.uniformsDirty = false) := by
  obtain ⟨hgpu, hact, hmap, hbk, hwhite, hcapf, hofs, hpend, hvbo, hty, hfst,
    hcnt, hcc⟩ := applySetOps_frame ops st
  have hcol := applySetOps_color ops st
  have hprj := applySetOps_proj ops st
  have htex := applySetOps_tex ops st
  have hrun := runSetOps_eq_ok ops st ha
  have hflush : uiFlushedUniforms (applySetOps ops st).1 = (applySetOps ops st).1.uniforms := by
    cases hd : (applySetOps ops st).1.uniformsDirty with
    | true => simp [uiFlushedUniforms, hd]
    | false =>
      obtain ⟨hd0, hu0⟩ := applySetOps_dirty ops st hd
      simp [uiFlushedUniforms, hd, hgpu, hu0, hwf hd0]
  refine ⟨(applySetOps ops st).1, (applySetOps ops st).2, hrun, hcol, hprj, htex,
    ?_, ?_⟩
  · intro hmapped
    have hm1 : (applySetOps ops st).1.mapped = true := by rw [hmap]; exact hmapped
    obtain ⟨sub, hdr, hsu, hst, hsc, hg, hu, hdone⟩ :=
      endPrimitiveC_uniforms (applySetOps ops st).1
    refine ⟨(endPrimitiveC (applySetOps ops st).1).1,
      (endPrimitiveC (applySetOps ops st).1).2.1,
      (endPrimitiveC (applySetOps ops st).1).2.2, sub, ?_, hdr, ?_, ?_, ?_, ?_,
      ?_, hdone⟩
    · simp [UIState.endPrimitive, hm1]
    · rw [hsu, hflush]
    · rw [hsu, hflush, hcol]
    · rw [hsu, hflush, hprj]
    · rw [hst, htex]
    · rw [hg, hflush, hu]
  · intro mf ty n vs hmapped hn hvslen hncap
    have hm1 : (applySetOps ops st).1.mapped = false := by rw [hmap]; exact hmapped
    have ha1 : (applySetOps ops st).1.active = true := by rw [hact]; exact ha
    have hlen' : vs.length = ([n] : List ℕ).sum := by simpa using hvslen
    have hcap' : ([n] : List ℕ).sum ≤ (applySetOps ops st).1.bufferCapacity := by
      rw [hcapf]; simpa using hncap
    obtain ⟨hdra, -, hg, hu, hd2, -, -, -, -, -, -, -⟩ :=
      uiCycleC_spec mf ty [n] vs (applySetOps ops st).1 hlen' hcap'
    refine ⟨(uiCycleC mf ty [n] vs (applySetOps ops st).1).1,
      (uiCycleC mf ty [n] vs (applySetOps ops st).1).2.1,
      uiExpectedSub mf ty [n] vs (applySetOps ops st).1, ?_, hdra, ?_, ?_, ?_,
      ?_, ?_, hd2⟩
    · simp [UIState.drawPrimitive, drawPrimitiveC, beginPrimitiveC, uiCycleC,
        ha1, hm1, hn]
    · simp only [uiExpectedSub]
      exact hflush
    · simp only [uiExpectedSub]
      rw [hflush, hcol]
    · simp only [uiExpectedSub]
      rw [hflush, hprj]
    · simp only [uiExpectedSub]
      exact htex
    · rw [hg, hflush, hu]

theorem uiRenderer_uniform_lastWriteWins_witness :
    uiActiveState.active = true ∧
    (∃ st1 calls1,
      UIState.runSetOps
        [UISetOp.color ⟨1, 0, 0, 1⟩, UISetOp.tex 5, UISetOp.proj 0 1 0 1,
         UISetOp.color ⟨0, 1, 0, 1⟩] uiActiveState = .ok (st1, calls1) ∧
      st1.uniforms.color
        = lastColorSpec
            [UISetOp.color ⟨1, 0, 0, 1⟩, UISetOp.tex 5, UISetOp.proj 0 1 0 1,
             UISetOp.color ⟨0, 1, 0, 1⟩] uiActiveState.uniforms.color ∧
      st1.uniforms.projectionMatrix
        = lastProjSpec
            [UISetOp.color ⟨1, 0, 0, 1⟩, UISetOp.tex 5, UISetOp.proj 0 1 0 1,
             UISetOp.color ⟨0, 1, 0, 1⟩] uiActiveState.uniforms.projectionMatrix ∧
      st1.currentTexture
        = lastTexSpec uiActiveState.whiteTexture
            [UISetOp.color ⟨1, 0, 0, 1⟩, UISetOp.tex 5, UISetOp.proj 0 1 0 1,
             UISetOp.color ⟨0, 1, 0, 1⟩] uiActiveState.currentTexture ∧
      (uiActiveState.mapped = true →
        ∃ st2 calls2 fast sub,
          st1.endPrimitive = .ok (st2, calls2, fast) ∧
          uiDraws calls2 = [sub] ∧
          sub.uniforms = st1.uniforms ∧
          sub.uniforms.color
            = lastColorSpec
                [UISetOp.color ⟨1, 0, 0, 1⟩, UISetOp.tex 5, UISetOp.proj 0 1 0 1,
                 UISetOp.color ⟨0, 1, 0, 1⟩] uiActiveState.uniforms.color ∧
          sub.uniforms.projectionMatrix
            = lastProjSpec
                [UISetOp.color ⟨1, 0, 0, 1⟩, UISetOp.tex 5, UISetOp.proj 0 1 0 1,
                 UISetOp.color ⟨0, 1, 0, 1⟩] uiActiveState.uniforms.projectionMatrix ∧
          sub.texture
            = lastTexSpec uiActiveState.whiteTexture
                [UISetOp.color ⟨1, 0, 0, 1⟩, UISetOp.tex 5, UISetOp.proj 0 1 0 1,
                 UISetOp.color ⟨0, 1, 0, 1⟩] uiActiveState.currentTexture ∧
          st2.gpuUniforms = st2.uniforms ∧
          st2.uniformsDirty = false) ∧
      (∀ mf ty n vs, uiActiveState.mapped = false → n ≠ 0 → vs.length = n →
        n ≤ uiActiveState.bufferCapacity →
        ∃ st2 calls2 sub,
          st1.drawPrimitive mf ty n (some vs) = .ok (st2, calls2) ∧
          uiDraws calls2 = [sub] ∧
          sub.uniforms = st1.uniforms ∧
          sub.uniforms.color
            = lastColorSpec
                [UISetOp.color ⟨1, 0, 0, 1⟩, UISetOp.tex 5, UISetOp.proj 0 1 0 1,
                 UISetOp.color ⟨0, 1, 0, 1⟩] uiActiveState.uniforms.color ∧
          sub.uniforms.projectionMatrix
            = lastProjSpec
                [UISetOp.color ⟨1, 0, 0, 1⟩, UISetOp.tex 5, UISetOp.proj 0 1 0 1,
                 UISetOp.color ⟨0, 1, 0, 1⟩] uiActiveState.uniforms.projectionMatrix ∧
          sub.texture
            = lastTexSpec uiActiveState.whiteTexture
                [UISetOp.color ⟨1, 0, 0, 1⟩, UISetOp.tex 5, UISetOp.proj 0 1 0 1,
                 UISetOp.color ⟨0, 1, 0, 1⟩] uiActiveState.currentTexture ∧
          st2.gpuUniforms = st2.uniforms ∧
          st2.uniformsDirty = false)) :=
  ⟨rfl,
    uiRenderer_uniform_lastWriteWins
      [UISetOp.color ⟨1, 0, 0, 1⟩, UISetOp.tex 5, UISetOp.proj 0 1 0 1,
       UISetOp.color ⟨0, 1, 0, 1⟩] uiActiveState rfl
      (fun h => by simp [uiActiveState, initialUIState] at h)⟩

/-- C3: for every renderer, a texture setter called with a handle that
already resolves to the cached current binding issues no device bind call; a
bind is issued exactly when the resolved handle differs from the cache, so
calling the same setter twice in a row issues at most one bind (exactly one
when the first call changed the binding).  Covers the UI renderer's
SetTexture, all five terrain texture setters and the shadow renderer's
SetTexture. -/
theorem textureBind_deduplication :
    (∀ (V : Type) (st : UIState V) (t : ℕ), st.active = true →
      ∃ st1 c1 c2,
        st.setTexture t = .ok (st1, c1) ∧
        st1.setTexture t = .ok (st1, c2) ∧
        c2 = [] ∧
        uiBindCount (c1 ++ c2) ≤ 1 ∧
        (resolveTexture st.whiteTexture t = st.currentTexture → c1 = []) ∧
        (resolveTexture st.whiteTexture t ≠ st.currentTexture →
          c1 = [UICall.bindTexture (resolveTexture st.whiteTexture t)])) ∧
    (∀ (st : TerrainState) (t : ℕ), st.active = true →
      ∃ st1 c1 c2,
        st.setAlbedoTexture t = .ok (st1, c1) ∧
        st1.setAlbedoTexture t = .ok (st1, c2) ∧
        c2 = [] ∧
        terrainBindCount (c1 ++ c2) ≤ 1 ∧
        (resolveTexture st.whiteTexture t = st.albedoTexture → c1 = []) ∧
        (resolveTexture st.whiteTexture t ≠ st.albedoTexture →
          c1 = [TerrainCall.bindTexture m_albedoIndex
            (resolveTexture st.whiteTexture t)])) ∧
    (∀ (st : TerrainState) (t : ℕ), st.active = true →
      ∃ st1 c1 c2,
        st.setDetailTexture t = .ok (st1, c1) ∧
        st1.setDetailTexture t = .ok (st1, c2) ∧
        c2 = [] ∧
        terrainBindCount (c1 ++ c2) ≤ 1 ∧
        (resolveTexture st.whiteTexture t = st.detailTexture → c1 = [])) ∧
    (∀ (st : TerrainState) (t : ℕ), st.active = true →
      ∃ st1 c1 c2,
        st.setEmissiveTexture t = .ok (st1, c1) ∧
        st1.setEmissiveTexture t = .ok (st1, c2) ∧
        c2 = [] ∧
        terrainBindCount (c1 ++ c2) ≤ 1 ∧
        (resolveTexture st.whiteTexture t = st.emissiveTexture → c1 = [])) ∧
    (∀ (st : TerrainState) (t : ℕ), st.active = true →
      ∃ st1 c1 c2,
        st.setMaterialTexture t = .ok (st1, c1) ∧
        st1.setMaterialTexture t = .ok (st1, c2) ∧
        c2 = [] ∧
        terrainBindCount (c1 ++ c2) ≤ 1 ∧
        (resolveTexture st.whiteTexture t = st.materialTexture → c1 = [])) ∧
    (∀ (st : TerrainState) (t : ℕ), st.active = true →
      ∃ st1 c1 c2,
        st.setShadowMap t = .ok (st1, c1) ∧
        st1.setShadowMap t = .ok (st1, c2) ∧
        c2 = [] ∧
        terrainBindCount (c1 ++ c2) ≤ 1 ∧
        (resolveTexture st.whiteTexture t = st.shadowMap → c1 = [])) ∧
    (∀ (st : ShadowState) (t : ℕ), st.active = true →
      ∃ st1 c1 c2,
        st.setTexture t = .ok (st1, c1) ∧
        st1.setTexture t = .ok (st1, c2) ∧
        c2 = [] ∧
        shadowBindCount (c1 ++ c2) ≤ 1 ∧
        (resolveTexture st.whiteTexture t = st.currentTexture → c1 = []) ∧
        (resolveTexture st.whiteTexture t ≠ st.currentTexture →
          c1 = [ShadowCall.bindTexture (resolveTexture st.whiteTexture t)])) := by
  refine ⟨?_, ?_, ?_, ?_, ?_, ?_, ?_⟩
  · intro V st t h
    by_cases hc : resolveTexture st.whiteTexture t = st.currentTexture
    · exact ⟨st, [], [],
        by simp [UIState.setTexture, setTextureC, h, hc],
        by simp [UIState.setTexture, setTextureC, h, hc],
        rfl, by simp [uiBindCount], fun _ => rfl, fun hne => absurd hc hne⟩
    · refine ⟨{ st with currentTexture := resolveTexture st.whiteTexture t },
        [UICall.bindTexture (resolveTexture st.whiteTexture t)], [],
        by simp [UIState.setTexture, setTextureC, h, hc],
        by simp [UIState.setTexture, setTextureC, h],
        rfl, by simp [uiBindCount], fun heq => absurd heq hc, fun _ => rfl⟩
  · intro st t h
    by_cases hc : resolveTexture st.whiteTexture t = st.albedoTexture
    · exact ⟨st, [], [],
        by simp [TerrainState.setAlbedoTexture, terrainGuard,
          terrainSetAlbedoTextureC, h, hc],
        by simp [TerrainState.setAlbedoTexture, terrainGuard,
          terrainSetAlbedoTextureC, h, hc],
        rfl, by simp [terrainBindCount], fun _ => rfl, fun hne => absurd hc hne⟩
    · refine ⟨{ st with albedoTexture := resolveTexture st.whiteTexture t },
        [TerrainCall.bindTexture m_albedoIndex (resolveTexture st.whiteTexture t)],
        [],
        by simp [TerrainState.setAlbedoTexture, terrainGuard,
          terrainSetAlbedoTextureC, h, hc],
        by simp [TerrainState.setAlbedoTexture, terrainGuard,
          terrainSetAlbedoTextureC, h],
        rfl, by simp [terrainBindCount], fun heq => absurd heq hc, fun _ => rfl⟩
  · intro st t h
    by_cases hc : resolveTexture st.whiteTexture t = st.detailTexture
    · exact ⟨st, [], [],
        by simp [TerrainState.setDetailTexture, terrainGuard,
          terrainSetDetailTextureC, h, hc],
        by simp [TerrainState.setDetailTexture, terrainGuard,
          terrainSetDetailTextureC, h, hc],
        rfl, by simp [terrainBindCount], fun _ => rfl⟩
    · refine ⟨{ st with detailTexture := resolveTexture st.whiteTexture t },
        [TerrainCall.bindTexture m_detailIndex (resolveTexture st.whiteTexture t)],
        [],
        by simp [TerrainState.setDetailTexture, terrainGuard,
          terrainSetDetailTextureC, h, hc],
        by simp [TerrainState.setDetailTexture, terrainGuard,
          terrainSetDetailTextureC, h],
        rfl, by simp [terrainBindCount], fun heq => absurd heq hc⟩
  · intro st t h
    by_cases hc : resolveTexture st.whiteTexture t = st.emissiveTexture
    · exact ⟨st, [], [],
        by simp [TerrainState.setEmissiveTexture, terrainGuard,
          terrainSetEmissiveTextureC, h, hc],
        by simp [TerrainState.setEmissiveTexture, terrainGuard,
          terrainSetEmissiveTextureC, h, hc],
        rfl, by simp [terrainBindCount], fun _ => rfl⟩
    · refine ⟨{ st with emissiveTexture := resolveTexture st.whiteTexture t },
        [TerrainCall.bindTexture m_emissiveIndex (resolveTexture st.whiteTexture t)],
        [],
        by simp [TerrainState.setEmissiveTexture, terrainGuard,
          terrainSetEmissiveTextureC, h, hc],
        by simp [TerrainState.setEmissiveTexture, terrainGuard,
          terrainSetEmissiveTextureC, h],
        rfl, by simp [terrainBindCount], fun heq => absurd heq hc⟩
  · intro st t h
    by_cases hc : resolveTexture st.whiteTexture t = st.materialTexture
    · exact ⟨st, [], [],
        by simp [TerrainState.setMaterialTexture, terrainGuard,
          terrainSetMaterialTextureC, h, hc],
        by simp [TerrainState.setMaterialTexture, terrainGuard,
          terrainSetMaterialTextureC, h, hc],
        rfl, by simp [terrainBindCount], fun _ => rfl⟩
    · refine ⟨{ st with materialTexture := resolveTexture st.whiteTexture t },
        [TerrainCall.bindTexture m_materialIndex (resolveTexture st.whiteTexture t)],
        [],
        by simp [TerrainState.setMaterialTexture, terrainGuard,
          terrainSetMaterialTextureC, h, hc],
        by simp [TerrainState.setMaterialTexture, terrainGuard,
          terrainSetMaterialTextureC, h],
        rfl, by simp [terrainBindCount], fun heq => absurd heq hc⟩
  · intro st t h
    by_cases hc : resolveTexture st.whiteTexture t = st.shadowMap
    · exact ⟨st, [], [],
        by simp [TerrainState.setShadowMap, terrainGuard,
          terrainSetShadowMapC, h, hc],
        by simp [TerrainState.setShadowMap, terrainGuard,
          terrainSetShadowMapC, h, hc],
        rfl, by simp [terrainBindCount], fun _ => rfl⟩
    · refine ⟨{ st with shadowMap := resolveTexture st.whiteTexture t },
        [TerrainCall.bindTexture m_shadowIndex (resolveTexture st.whiteTexture t)],
        [],
        by simp [TerrainState.setShadowMap, terrainGuard,
          terrainSetShadowMapC, h, hc],
        by simp [TerrainState.setShadowMap, terrainGuard,
          terrainSetShadowMapC, h],
        rfl, by simp [terrainBindCount], fun heq => absurd heq hc⟩
  · intro st t h
    by_cases hc : resolveTexture st.whiteTexture t = st.currentTexture
    · exact ⟨st, [], [],
        by simp [ShadowState.setTexture, shadowGuard, shadowSetTextureC, h, hc],
        by simp [ShadowState.setTexture, shadowGuard, shadowSetTextureC, h, hc],
        rfl, by simp [shadowBindCount], fun _ => rfl, fun hne => absurd hc hne⟩
    · refine ⟨{ st with currentTexture := resolveTexture st.whiteTexture t },
        [ShadowCall.bindTexture (resolveTexture st.whiteTexture t)], [],
        by simp [ShadowState.setTexture, shadowGuard, shadowSetTextureC, h, hc],
        by simp [ShadowState.setTexture, shadowGuard, shadowSetTextureC, h],
        rfl, by simp [shadowBindCount], fun heq => absurd heq hc, fun _ => rfl⟩

theorem textureBind_deduplication_witness :
    uiActiveState.active = true ∧
    terrainActiveState.active = true ∧
    shadowActiveState.active = true ∧
    (∃ st1 c1 c2,
      uiActiveState.setTexture 7 = .ok (st1, c1) ∧
      st1.setTexture 7 = .ok (st1, c2) ∧
      c2 = [] ∧
      uiBindCount (c1 ++ c2) ≤ 1 ∧
      (resolveTexture uiActiveState.whiteTexture 7 = uiActiveState.currentTexture →
        c1 = []) ∧
      (resolveTexture uiActiveState.whiteTexture 7 ≠ uiActiveState.currentTexture →
        c1 = [UICall.bindTexture (resolveTexture uiActiveState.whiteTexture 7)])) ∧
    (∃ st1 c1 c2,
      terrainActiveState.setAlbedoTexture 7 = .ok (st1, c1) ∧
      st1.setAlbedoTexture 7 = .ok (st1, c2) ∧
      c2 = [] ∧
      terrainBindCount (c1 ++ c2) ≤ 1 ∧
      (resolveTexture terrainActiveState.whiteTexture 7
          = terrainActiveState.albedoTexture → c1 = []) ∧
      (resolveTexture terrainActiveState.whiteTexture 7
          ≠ terrainActiveState.albedoTexture →
        c1 = [TerrainCall.bindTexture m_albedoIndex
          (resolveTexture terrainActiveState.whiteTexture 7)])) ∧
    (∃ st1 c1 c2,
      shadowActiveState.setTexture 7 = .ok (st1, c1) ∧
      st1.setTexture 7 = .ok (st1, c2) ∧
      c2 = [] ∧
      shadowBindCount (c1 ++ c2) ≤ 1 ∧
      (resolveTexture shadowActiveState.whiteTexture 7
          = shadowActiveState.currentTexture → c1 = []) ∧
      (resolveTexture shadowActiveState.whiteTexture 7
          ≠ shadowActiveState.currentTexture →
        c1 = [ShadowCall.bindTexture
          (resolveTexture shadowActiveState.whiteTexture 7)])) :=
  ⟨rfl, rfl, rfl,
    textureBind_deduplication.1 ℕ uiActiveState 7 rfl,
    textureBind_deduplication.2.1 terrainActiveState 7 rfl,
    textureBind_deduplication.2.2.2.2.2.2 shadowActiveState 7 rfl⟩

lemma invT_mul_left (A : Mat3) (h : A.det ≠ 0) :
    Mat3.mul (Mat3.transpose (Mat3.inverseTranspose A)) A = Mat3.id := by
  have hd : A.m00 * (A.m11 * A.m22 - A.m12 * A.m21)
      - A.m01 * (A.m10 * A.m22 - A.m12 * A.m20)
      + A.m02 * (A.m10 * A.m21 - A.m11 * A.m20) ≠ 0 := h
  simp only [Mat3.inverseTranspose, Mat3.cofactor, Mat3.smul, Mat3.transpose,
    Mat3.mul, Mat3.id, Mat3.det]
  rw [Mat3.mk.injEq]
  refine ⟨?_, ?_, ?_, ?_, ?_, ?_, ?_, ?_, ?_⟩ <;> field_simp <;> ring

lemma invT_mul_right (A : Mat3) (h : A.det ≠ 0) :
    Mat3.mul A (Mat3.transpose (Mat3.inverseTranspose A)) = Mat3.id := by
  have hd : A.m00 * (A.m11 * A.m22 - A.m12 * A.m21)
      - A.m01 * (A.m10 * A.m22 - A.m12 * A.m20)
      + A.m02 * (A.m10 * A.m21 - A.m11 * A.m20) ≠ 0 := h
  simp only [Mat3.inverseTranspose, Mat3.cofactor, Mat3.smul, Mat3.transpose,
    Mat3.mul, Mat3.id, Mat3.det]
  rw [Mat3.mk.injEq]
  refine ⟨?_, ?_, ?_, ?_, ?_, ?_, ?_, ?_, ?_⟩ <;> field_simp <;> ring

lemma terrainDraws_of_binds (l : List (ShadowParam × ℕ)) :
    terrainDraws (l.map (fun pi => TerrainCall.bindShadowUniforms pi.2 pi.1)) = [] := by
  induction l with
  | nil => rfl
  | cons p l ih => simpa [terrainDraws] using ih

lemma map_swap_zip {α β : Type} : ∀ (l : List α) (r : List β),
    (l.zip r).map (fun p => (p.2, p.1)) = r.zip l
  | [], _ => by simp
  | _ :: _, [] => by simp
  | a :: l, b :: r => by simp [map_swap_zip l r]

lemma shadowBindsOf_of_binds (l : List (ShadowParam × ℕ)) :
    shadowBindsOf (l.map (fun pi => TerrainCall.bindShadowUniforms pi.2 pi.1))
      = l.map (fun pi => (pi.2, pi.1)) := by
  induction l with
  | nil => rfl
  | cons p l ih => simpa [shadowBindsOf] using ih

lemma filterMap_comp_binds (l : List (ShadowParam × ℕ)) :
    List.filterMap ((fun c : TerrainCall =>
        match c with
        | TerrainCall.bindShadowUniforms i p => some (i, p)
        | _ => none) ∘ fun pi => TerrainCall.bindShadowUniforms pi.2 pi.1) l
      = l.map (fun pi => (pi.2, pi.1)) := by
  induction l with
  | nil => rfl
  | cons p l ih => simpa using ih

/-- C5: for every model matrix M set on the terrain renderer, via
SetModelMatrix or via DrawObject, the stored normal matrix (and the one the
draw call carries) is recomputed as the inverse-transpose of the upper 3x3
block of M; and that formula genuinely is the inverse-transpose: against the
reference computation, its transpose is a two-sided inverse of the linear
part whenever the determinant is nonzero. -/
theorem terrainNormalMatrix_inverseTranspose :
    (∀ (st : TerrainState) (M : Mat4), st.active = true →
      ∃ st1, st.setModelMatrix M = .ok (st1, []) ∧
        st1.modelMatrix = M ∧
        st1.normalMatrix = Mat3.inverseTranspose (Mat4.upper3 M)) ∧
    (∀ (st : TerrainState) (M : Mat4) (buf : VertexBuffer), st.active = true →
      ∃ st1 calls,
        st.drawObject M buf = .ok (st1, calls) ∧
        st1.modelMatrix = M ∧
        st1.normalMatrix = Mat3.inverseTranspose (Mat4.upper3 M) ∧
        terrainDraws calls
          = [TerrainCall.drawCall M (Mat3.inverseTranspose (Mat4.upper3 M)) buf]) ∧
    (∀ M : Mat4, (Mat4.upper3 M).det ≠ 0 →
      Mat3.mul (Mat3.transpose (Mat3.inverseTranspose (Mat4.upper3 M)))
        (Mat4.upper3 M) = Mat3.id ∧
      Mat3.mul (Mat4.upper3 M)
        (Mat3.transpose (Mat3.inverseTranspose (Mat4.upper3 M))) = Mat3.id) := by
  refine ⟨?_, ?_, ?_⟩
  · intro st M h
    refine ⟨(terrainSetModelMatrixC M st).1, ?_, rfl, rfl⟩
    simp [TerrainState.setModelMatrix, terrainGuard, terrainSetModelMatrixC, h]
  · intro st M buf h
    refine ⟨(terrainDrawObjectC M buf st).1, (terrainDrawObjectC M buf st).2,
      ?_, rfl, rfl, ?_⟩
    · simp [TerrainState.drawObject, terrainGuard, h]
    · have hsb := terrainDraws_of_binds
        (st.shadowParams.zip (List.range st.shadowParams.length))
      simp only [terrainDraws] at hsb
      simp [terrainDrawObjectC, terrainDraws, shadowBindCalls,
        List.filter_append, hsb]
  · intro M h
    exact ⟨invT_mul_left (Mat4.upper3 M) h, invT_mul_right (Mat4.upper3 M) h⟩

theorem terrainNormalMatrix_inverseTranspose_witness :
    terrainActiveState.active = true ∧
    (Mat4.upper3 nonUniformScaleRotation).det ≠ 0 ∧
    (∃ st1, terrainActiveState.setModelMatrix nonUniformScaleRotation
        = .ok (st1, []) ∧
      st1.modelMatrix = nonUniformScaleRotation ∧
      st1.normalMatrix
        = Mat3.inverseTranspose (Mat4.upper3 nonUniformScaleRotation)) ∧
    (Mat3.mul (Mat3.transpose (Mat3.inverseTranspose
        (Mat4.upper3 nonUniformScaleRotation)))
      (Mat4.upper3 nonUniformScaleRotation) = Mat3.id ∧
     Mat3.mul (Mat4.upper3 nonUniformScaleRotation)
      (Mat3.transpose (Mat3.inverseTranspose
        (Mat4.upper3 nonUniformScaleRotation))) = Mat3.id) :=
  ⟨rfl, by norm_num [nonUniformScaleRotation, Mat4.upper3, Mat3.det],
    terrainNormalMatrix_inverseTranspose.1 terrainActiveState
      nonUniformScaleRotation rfl,
    terrainNormalMatrix_inverseTranspose.2.2 nonUniformScaleRotation
      (by norm_num [nonUniformScaleRotation, Mat4.upper3, Mat3.det])⟩

/-- C6: SetShadowParams on the terrain renderer accepts any count from 0 to
4 (reading that many entries); after SetShadowParams(count, params) a draw
binds exactly count sets of shadow uniforms, in slots 0..count-1, matching
the input order of params — in particular exactly 4 sets for count = 4. -/
theorem terrainShadowParams_bindOrder (st : TerrainState) (count : ℕ)
    (ps : List ShadowParam) (ha : st.active = true) (hc : count ≤ 4)
    (hlen : ps.length = count) :
    ∃ st1,
      st.setShadowParams count ps = .ok (st1, []) ∧
      st1.shadowRegions = count ∧
      st1.shadowParams = ps ∧
      (∀ (M : Mat4) (buf : VertexBuffer),
        ∃ st2 calls,
          st1.drawObject M buf = .ok (st2, calls) ∧
          shadowBindsOf calls = (List.range count).zip ps ∧
          (shadowBindsOf calls).length = count) := by
  have htake : ps.take count = ps := by
    rw [← hlen]
    exact List.take_length ps
  refine ⟨(terrainSetShadowParamsC (ps.take count) st).1, ?_, ?_, ?_, ?_⟩
  · simp [TerrainState.setShadowParams, terrainSetShadowParamsC, ha, hc]
  · simp [terrainSetShadowParamsC, htake, hlen]
  · simp [terrainSetShadowParamsC, htake]
  · intro M buf
    refine ⟨(terrainDrawObjectC M buf
        (terrainSetShadowParamsC (ps.take count) st).1).1,
      (terrainDrawObjectC M buf
        (terrainSetShadowParamsC (ps.take count) st).1).2, ?_, ?_, ?_⟩
    · simp [TerrainState.drawObject, terrainGuard, terrainSetShadowParamsC, ha]
    · simp [terrainDrawObjectC, shadowBindsOf, shadowBindCalls,
        terrainSetShadowParamsC, htake, hlen, List.filterMap_append,
        filterMap_comp_binds, map_swap_zip]
    · simp [terrainDrawObjectC, shadowBindsOf, shadowBindCalls,
        terrainSetShadowParamsC, htake, hlen, List.filterMap_append,
        filterMap_comp_binds, map_swap_zip, List.length_zip]

theorem terrainShadowParams_bindOrder_witness :
    terrainActiveState.active = true ∧
    (4 : ℕ) ≤ 4 ∧
    witnessShadowParams.length = 4 ∧
    (∃ st1,
      terrainActiveState.setShadowParams 4 witnessShadowParams = .ok (st1, []) ∧
      st1.shadowRegions = 4 ∧
      st1.shadowParams = witnessShadowParams ∧
      (∀ (M : Mat4) (buf : VertexBuffer),
        ∃ st2 calls,
          st1.drawObject M buf = .ok (st2, calls) ∧
          shadowBindsOf calls = (List.range 4).zip witnessShadowParams ∧
          (shadowBindsOf calls).length = 4)) :=
  ⟨rfl, by decide, rfl,
    terrainShadowParams_bindOrder terrainActiveState 4 witnessShadowParams rfl
      (by decide) rfl⟩

/-- C7: all three renderers share the Idle/Active state machine: every
setter or draw method called while Idle is rejected with an error (issuing no
GPU commands, since an error carries no call trace), and Begin called while
already Active is rejected as well. -/
theorem rendererStateMachine_rejects :
    (∀ (V : Type) (st : UIState V) (c : Vec4), st.active = false →
      st.setColor c = .error .notActive) ∧
    (∀ (V : Type) (st : UIState V) (l r b t : ℚ), st.active = false →
      st.setProjection l r b t = .error .notActive) ∧
    (∀ (V : Type) (st : UIState V) (t : ℕ), st.active = false →
      st.setTexture t = .error .notActive) ∧
    (∀ (V : Type) (st : UIState V) (mode : TransparencyMode), st.active = false →
      st.setTransparency mode = .error .notActive) ∧
    (∀ (V : Type) (st : UIState V) (mf : Bool) (ty : PrimitiveType) (n : ℕ)
        (verts : Option (List V)), st.active = false →
      st.drawPrimitive mf ty n verts = .error .notActive) ∧
    (∀ (V : Type) (st : UIState V) (mf : Bool) (ty : PrimitiveType)
        (counts : List ℕ), st.active = false →
      st.beginPrimitives mf ty counts = .error .notActive) ∧
    (∀ (V : Type) (st : UIState V), st.active = true →
      st.beginPass = .error .alreadyActive) ∧
    (∀ (st : TerrainState) (M : Mat4), st.active = false →
      st.setProjectionMatrix M = .error .notActive ∧
      st.setViewMatrix M = .error .notActive ∧
      st.setModelMatrix M = .error .notActive) ∧
    (∀ (st : TerrainState) (c : Color) (i : ℚ), st.active = false →
      st.setAlbedoColor c = .error .notActive ∧
      st.setEmissiveColor c = .error .notActive ∧
      st.setSky c i = .error .notActive) ∧
    (∀ (st : TerrainState) (t : ℕ), st.active = false →
      st.setAlbedoTexture t = .error .notActive ∧
      st.setDetailTexture t = .error .notActive ∧
      st.setEmissiveTexture t = .error .notActive ∧
      st.setMaterialTexture t = .error .notActive ∧
      st.setShadowMap t = .error .notActive) ∧
    (∀ (st : TerrainState) (a b c : ℚ) (v : Vec3) (p : Vec4),
        st.active = false →
      st.setMaterialParams a b c = .error .notActive ∧
      st.setFog a b v = .error .notActive ∧
      st.setLight p a v = .error .notActive) ∧
    (∀ (st : TerrainState) (count : ℕ) (ps : List ShadowParam),
        st.active = false →
      st.setShadowParams count ps = .error .notActive) ∧
    (∀ (st : TerrainState) (M : Mat4) (buf : VertexBuffer), st.active = false →
      st.drawObject M buf = .error .notActive) ∧
    (∀ st : TerrainState, st.active = true →
      st.beginPass = .error .alreadyActive) ∧
    (∀ (st : ShadowState) (M : Mat4), st.active = false →
      st.setProjectionMatrix M = .error .notActive ∧
      st.setViewMatrix M = .error .notActive ∧
      st.setModelMatrix M = .error .notActive) ∧
    (∀ (st : ShadowState) (t : ℕ), st.active = false →
      st.setTexture t = .error .notActive) ∧
    (∀ (st : ShadowState) (o s : Vec2), st.active = false →
      st.setShadowRegion o s = .error .notActive) ∧
    (∀ (st : ShadowState) (buf : VertexBuffer) (tr : Bool), st.active = false →
      st.drawObject buf tr = .error .notActive) ∧
    (∀ st : ShadowState, st.active = true →
      st.beginPass = .error .alreadyActive) := by
  refine ⟨?_, ?_, ?_, ?_, ?_, ?_, ?_, ?_, ?_, ?_, ?_, ?_, ?_, ?_, ?_, ?_, ?_,
    ?_, ?_⟩
  · intro V st c h
    simp [UIState.setColor, h]
  · intro V st l r b t h
    simp [UIState.setProjection, h]
  · intro V st t h
    simp [UIState.setTexture, h]
  · intro V st mode h
    simp [UIState.setTransparency, h]
  · intro V st mf ty n verts h
    simp [UIState.drawPrimitive, h]
  · intro V st mf ty counts h
    simp [UIState.beginPrimitives, h]
  · intro V st h
    simp [UIState.beginPass, h]
  · intro st M h
    refine ⟨?_, ?_, ?_⟩ <;>
      simp [TerrainState.setProjectionMatrix, TerrainState.setViewMatrix,
        TerrainState.setModelMatrix, terrainGuard, h]
  · intro st c i h
    refine ⟨?_, ?_, ?_⟩ <;>
      simp [TerrainState.setAlbedoColor, TerrainState.setEmissiveColor,
        TerrainState.setSky, terrainGuard, h]
  · intro st t h
    refine ⟨?_, ?_, ?_, ?_, ?_⟩ <;>
      simp [TerrainState.setAlbedoTexture, TerrainState.setDetailTexture,
        TerrainState.setEmissiveTexture, TerrainState.setMaterialTexture,
        TerrainState.setShadowMap, terrainGuard, h]
  · intro st a b c v p h
    refine ⟨?_, ?_, ?_⟩ <;>
      simp [TerrainState.setMaterialParams, TerrainState.setFog,
        TerrainState.setLight, terrainGuard, h]
  · intro st count ps h
    simp [TerrainState.setShadowParams, h]
  · intro st M buf h
    simp [TerrainState.drawObject, terrainGuard, h]
  · intro st h
    simp [TerrainState.beginPass, h]
  · intro st M h
    refine ⟨?_, ?_, ?_⟩ <;>
      simp [ShadowState.setProjectionMatrix, ShadowState.setViewMatrix,
        ShadowState.setModelMatrix, shadowGuard, h]
  · intro st t h
    simp [ShadowState.setTexture, shadowGuard, h]
  · intro st o s h
    simp [ShadowState.setShadowRegion, shadowGuard, h]
  · intro st buf tr h
    simp [ShadowState.drawObject, shadowGuard, h]
  · intro st h
    simp [ShadowState.beginPass, h]

theorem rendererStateMachine_rejects_witness :
    initialUIState.setColor ⟨0, 0, 0, 0⟩ = .error .notActive ∧
    initialTerrainState.drawObject Mat4.id ⟨0, 0⟩ = .error .notActive ∧
    initialShadowState.setTexture 3 = .error .notActive ∧
    uiActiveState.beginPass = .error .alreadyActive ∧
    terrainActiveState.beginPass = .error .alreadyActive ∧
    shadowActiveState.beginPass = .error .alreadyActive :=
  ⟨rendererStateMachine_rejects.1 ℕ initialUIState ⟨0, 0, 0, 0⟩ rfl,
   rendererStateMachine_rejects.2.2.2.2.2.2.2.2.2.2.2.2.1
     initialTerrainState Mat4.id ⟨0, 0⟩ rfl,
   rendererStateMachine_rejects.2.2.2.2.2.2.2.2.2.2.2.2.2.2.2.1
     initialShadowState 3 rfl,
   rendererStateMachine_rejects.2.2.2.2.2.2.1 ℕ uiActiveState rfl,
   rendererStateMachine_rejects.2.2.2.2.2.2.2.2.2.2.2.2.2.1
     terrainActiveState rfl,
   rendererStateMachine_rejects.2.2.2.2.2.2.2.2.2.2.2.2.2.2.2.2.2.2
     shadowActiveState rfl⟩

/-- C10: the terrain renderer's five logical texture slots are assigned the
fixed, pairwise-distinct texture units 4, 5, 6, 7, 8, and each texture
setter updates only its own cached binding slot, leaving the other four
cached bindings unchanged. -/
theorem terrainTextureUnits_distinct_slots :
    (m_albedoIndex = 4 ∧ m_detailIndex = 5 ∧ m_emissiveIndex = 6 ∧
     m_materialIndex = 7 ∧ m_shadowIndex = 8) ∧
    List.Pairwise (· ≠ ·)
      [m_albedoIndex, m_detailIndex, m_emissiveIndex, m_materialIndex,
       m_shadowIndex] ∧
    (∀ (st : TerrainState) (t : ℕ), st.active = true →
      ∃ st1 c1, st.setAlbedoTexture t = .ok (st1, c1) ∧
        st1.detailTexture = st.detailTexture ∧
        st1.emissiveTexture = st.emissiveTexture ∧
        st1.materialTexture = st.materialTexture ∧
        st1.shadowMap = st.shadowMap) ∧
    (∀ (st : TerrainState) (t : ℕ), st.active = true →
      ∃ st1 c1, st.setDetailTexture t = .ok (st1, c1) ∧
        st1.albedoTexture = st.albedoTexture ∧
        st1.emissiveTexture = st.emissiveTexture ∧
        st1.materialTexture = st.materialTexture ∧
        st1.shadowMap = st.shadowMap) ∧
    (∀ (st : TerrainState) (t : ℕ), st.active = true →
      ∃ st1 c1, st.setEmissiveTexture t = .ok (st1, c1) ∧
        st1.albedoTexture = st.albedoTexture ∧
        st1.detailTexture = st.detailTexture ∧
        st1.materialTexture = st.materialTexture ∧
        st1.shadowMap = st.shadowMap) ∧
    (∀ (st : TerrainState) (t : ℕ), st.active = true →
      ∃ st1 c1, st.setMaterialTexture t = .ok (st1, c1) ∧
        st1.albedoTexture = st.albedoTexture ∧
        st1.detailTexture = st.detailTexture ∧
        st1.emissiveTexture = st.emissiveTexture ∧
        st1.shadowMap = st.shadowMap) ∧
    (∀ (st : TerrainState) (t : ℕ), st.active = true →
      ∃ st1 c1, st.setShadowMap t = .ok (st1, c1) ∧
        st1.albedoTexture = st.albedoTexture ∧
        st1.detailTexture = st.detailTexture ∧
        st1.emissiveTexture = st.emissiveTexture ∧
        st1.materialTexture = st.materialTexture) := by
  refine ⟨by decide, by decide, ?_, ?_, ?_, ?_, ?_⟩
  · intro st t h
    refine ⟨(terrainSetAlbedoTextureC t st).1, (terrainSetAlbedoTextureC t st).2,
      ?_, ?_, ?_, ?_, ?_⟩
    · simp [TerrainState.setAlbedoTexture, terrainGuard, h]
    all_goals
      simp only [terrainSetAlbedoTextureC]
      split <;> rfl
  · intro st t h
    refine ⟨(terrainSetDetailTextureC t st).1, (terrainSetDetailTextureC t st).2,
      ?_, ?_, ?_, ?_, ?_⟩
    · simp [TerrainState.setDetailTexture, terrainGuard, h]
    all_goals
      simp only [terrainSetDetailTextureC]
      split <;> rfl
  · intro st t h
    refine ⟨(terrainSetEmissiveTextureC t st).1,
      (terrainSetEmissiveTextureC t st).2, ?_, ?_, ?_, ?_, ?_⟩
    · simp [TerrainState.setEmissiveTexture, terrainGuard, h]
    all_goals
      simp only [terrainSetEmissiveTextureC]
      split <;> rfl
  · intro st t h
    refine ⟨(terrainSetMaterialTextureC t st).1,
      (terrainSetMaterialTextureC t st).2, ?_, ?_, ?_, ?_, ?_⟩
    · simp [TerrainState.setMaterialTexture, terrainGuard, h]
    all_goals
      simp only [terrainSetMaterialTextureC]
      split <;> rfl
  · intro st t h
    refine ⟨(terrainSetShadowMapC t st).1, (terrainSetShadowMapC t st).2,
      ?_, ?_, ?_, ?_, ?_⟩
    · simp [TerrainState.setShadowMap, terrainGuard, h]
    all_goals
      simp only [terrainSetShadowMapC]
      split <;> rfl

theorem terrainTextureUnits_distinct_slots_witness :
    terrainActiveState.active = true ∧
    (∃ st1 c1, terrainActiveState.setAlbedoTexture 9 = .ok (st1, c1) ∧
      st1.detailTexture = terrainActiveState.detailTexture ∧
      st1.emissiveTexture = terrainActiveState.emissiveTexture ∧
      st1.materialTexture = terrainActiveState.materialTexture ∧
      st1.shadowMap = terrainActiveState.shadowMap) ∧
    (∃ st1 c1, terrainActiveState.setShadowMap 9 = .ok (st1, c1) ∧
      st1.albedoTexture = terrainActiveState.albedoTexture ∧
      st1.detailTexture = terrainActiveState.detailTexture ∧
      st1.emissiveTexture = terrainActiveState.emissiveTexture ∧
      st1.materialTexture = terrainActiveState.materialTexture) :=
  ⟨rfl,
   terrainTextureUnits_distinct_slots.2.2.1 terrainActiveState 9 rfl,
   terrainTextureUnits_distinct_slots.2.2.2.2.2.2 terrainActiveState 9 rfl⟩

lemma runTerrainOp_shadow_inv (op : TerrainOp) (st : TerrainState)
    (h1 : st.shadowRegions = st.shadowParams.length)
    (h2 : st.shadowParams.length ≤ 4) :
    (runTerrainOp op st).1.shadowRegions
        = (runTerrainOp op st).1.shadowParams.length ∧
    (runTerrainOp op st).1.shadowParams.length ≤ 4 := by
  cases op with
  | beginOp =>
    by_cases ha : st.active = true <;>
      simp [runTerrainOp, TerrainState.beginPass, ha, h1, h2]
  | endOp =>
    by_cases ha : st.active = true <;>
      simp [runTerrainOp, TerrainState.endPass, ha, h1, h2]
  | projectionMatrixOp M =>
    by_cases ha : st.active = true <;>
      simp [runTerrainOp, TerrainState.setProjectionMatrix, terrainGuard,
        terrainSetProjectionMatrixC, ha, h1, h2]
  | viewMatrixOp M =>
    by_cases ha : st.active = true <;>
      simp [runTerrainOp, TerrainState.setViewMatrix, terrainGuard,
        terrainSetViewMatrixC, ha, h1, h2]
  | modelMatrixOp M =>
    by_cases ha : st.active = true <;>
      simp [runTerrainOp, TerrainState.setModelMatrix, terrainGuard,
        terrainSetModelMatrixC, ha, h1, h2]
  | albedoColorOp c =>
    by_cases ha : st.active = true <;>
      simp [runTerrainOp, TerrainState.setAlbedoColor, terrainGuard,
        terrainSetAlbedoColorC, ha, h1, h2]
  | albedoTextureOp t =>
    by_cases ha : st.active = true <;>
      by_cases hres : resolveTexture st.whiteTexture t = st.albedoTexture <;>
        simp [runTerrainOp, TerrainState.setAlbedoTexture, terrainGuard,
          terrainSetAlbedoTextureC, ha, hres, h1, h2]
  | emissiveColorOp c =>
    by_cases ha : st.active = true <;>
      simp [runTerrainOp, TerrainState.setEmissiveColor, terrainGuard,
        terrainSetEmissiveColorC, ha, h1, h2]
  | emissiveTextureOp t =>
    by_cases ha : st.active = true <;>
      by_cases hres : resolveTexture st.whiteTexture t = st.emissiveTexture <;>
        simp [runTerrainOp, TerrainState.setEmissiveTexture, terrainGuard,
          terrainSetEmissiveTextureC, ha, hres, h1, h2]
  | materialParamsOp rough metal ao =>
    by_cases ha : st.active = true <;>
      simp [runTerrainOp, TerrainState.setMaterialParams, terrainGuard,
        terrainSetMaterialParamsC, ha, h1, h2]
  | materialTextureOp t =>
    by_cases ha : st.active = true <;>
      by_cases hres : resolveTexture st.whiteTexture t = st.materialTexture <;>
        simp [runTerrainOp, TerrainState.setMaterialTexture, terrainGuard,
          terrainSetMaterialTextureC, ha, hres, h1, h2]
  | detailTextureOp t =>
    by_cases ha : st.active = true <;>
      by_cases hres : resolveTexture st.whiteTexture t = st.detailTexture <;>
        simp [runTerrainOp, TerrainState.setDetailTexture, terrainGuard,
          terrainSetDetailTextureC, ha, hres, h1, h2]
  | shadowMapOp t =>
    by_cases ha : st.active = true <;>
      by_cases hres : resolveTexture st.whiteTexture t = st.shadowMap <;>
        simp [runTerrainOp, TerrainState.setShadowMap, terrainGuard,
          terrainSetShadowMapC, ha, hres, h1, h2]
  | lightOp p i c =>
    by_cases ha : st.active = true <;>
      simp [runTerrainOp, TerrainState.setLight, terrainGuard,
        terrainSetLightC, ha, h1, h2]
  | skyOp c i =>
    by_cases ha : st.active = true <;>
      simp [runTerrainOp, TerrainState.setSky, terrainGuard,
        terrainSetSkyC, ha, h1, h2]
  | shadowParamsOp count ps =>
    by_cases ha : st.active = true
    · by_cases hcnt : count ≤ 4
      · constructor
        · simp [runTerrainOp, TerrainState.setShadowParams, ha, hcnt,
            terrainSetShadowParamsC]
        · simp only [runTerrainOp, TerrainState.setShadowParams, ha, hcnt,
            if_true, terrainSetShadowParamsC]
          simp [List.length_take]
          omega
      · simp [runTerrainOp, TerrainState.setShadowParams, ha, hcnt, h1, h2]
    · simp [runTerrainOp, TerrainState.setShadowParams, ha, h1, h2]
  | fogOp fmin fmax c =>
    by_cases ha : st.active = true <;>
      simp [runTerrainOp, TerrainState.setFog, terrainGuard,
        terrainSetFogC, ha, h1, h2]
  | drawObjectOp M buf =>
    by_cases ha : st.active = true <;>
      simp [runTerrainOp, TerrainState.drawObject, terrainGuard,
        terrainDrawObjectC, ha, h1, h2]

/-- C9: for every sequence of public terrain renderer operations under
release-build semantics (contract violations degrade to no-ops, spec section
7), the stored active shadow-region count equals the stored region list's
length and stays between 0 and 4 inclusive — the shadow uniform storage is a
fixed array of 4 slots — so a draw never binds more than 4 shadow-region
uniform sets, regardless of the count passed to SetShadowParams; and the
fresh renderer state satisfies the invariant. -/
theorem terrainShadowRegions_invariant :
    (∀ (ops : List TerrainOp) (st : TerrainState),
      st.shadowRegions = st.shadowParams.length →
      st.shadowParams.length ≤ 4 →
      (runTerrainOps ops st).1.shadowRegions
          = (runTerrainOps ops st).1.shadowParams.length ∧
      (runTerrainOps ops st).1.shadowParams.length ≤ 4 ∧
      (runTerrainOps ops st).1.shadowRegions ≤ 4) ∧
    (∀ (st : TerrainState) (M : Mat4) (buf : VertexBuffer),
      st.shadowParams.length ≤ 4 →
      (shadowBindsOf (terrainDrawObjectC M buf st).2).length ≤ 4) ∧
    initialTerrainState.shadowRegions = initialTerrainState.shadowParams.length ∧
    initialTerrainState.shadowParams.length ≤ 4 := by
  refine ⟨?_, ?_, by simp [initialTerrainState], by simp [initialTerrainState]⟩
  · intro ops st h1 h2
    induction ops generalizing st with
    | nil =>
      refine ⟨h1, h2, ?_⟩
      simp only [runTerrainOps]
      omega
    | cons op ops ih =>
      obtain ⟨g1, g2⟩ := runTerrainOp_shadow_inv op st h1 h2
      simpa [runTerrainOps] using ih (runTerrainOp op st).1 g1 g2
  · intro st M buf h
    have hlen : (shadowBindsOf (terrainDrawObjectC M buf st).2).length
        = st.shadowParams.length := by
      simp [terrainDrawObjectC, shadowBindsOf, shadowBindCalls,
        List.filterMap_append, filterMap_comp_binds, List.length_zip]
    rw [hlen]
    exact h

theorem terrainShadowRegions_invariant_witness :
    initialTerrainState.shadowRegions = initialTerrainState.shadowParams.length ∧
    initialTerrainState.shadowParams.length ≤ 4 ∧
    ((runTerrainOps
        [TerrainOp.beginOp, TerrainOp.shadowParamsOp 7 witnessShadowParams,
         TerrainOp.shadowParamsOp 3 witnessShadowParams]
        initialTerrainState).1.shadowRegions
      = (runTerrainOps
          [TerrainOp.beginOp, TerrainOp.shadowParamsOp 7 witnessShadowParams,
           TerrainOp.shadowParamsOp 3 witnessShadowParams]
          initialTerrainState).1.shadowParams.length ∧
     (runTerrainOps
        [TerrainOp.beginOp, TerrainOp.shadowParamsOp 7 witnessShadowParams,
         TerrainOp.shadowParamsOp 3 witnessShadowParams]
        initialTerrainState).1.shadowParams.length ≤ 4 ∧
     (runTerrainOps
        [TerrainOp.beginOp, TerrainOp.shadowParamsOp 7 witnessShadowParams,
         TerrainOp.shadowParamsOp 3 witnessShadowParams]
        initialTerrainState).1.shadowRegions ≤ 4) :=
  ⟨rfl, by decide,
    terrainShadowRegions_invariant.1
      [TerrainOp.beginOp, TerrainOp.shadowParamsOp 7 witnessShadowParams,
       TerrainOp.shadowParamsOp 3 witnessShadowParams]
      initialTerrainState rfl (by decide)⟩

end Gfx
